import Mathlib

/-! Admin dashboard, session handling and storefront list: a verification development.

Shallow embedding of the view router of `admin.js` (`handleHashChange`, `showView`),
of the session manager of `auth.js` (`checkAuthState`, `startSessionTimer`, `login`,
`logout`, `checkAdminAuth`, `updateAuthUI`, `showLoading`, `hideLoading`,
`showNotification`), of the product form and `deleteProduct` of `admin.js`, and of the
paging of `products-page.js` (`loadAllProducts`, `loadMoreProducts`,
`displayProductsPage`), whose grid is read off the markup the template writes.

The browser document is explicit state.  The identity provider, the data backend and
the clock are external: every call into them takes its outcome as an argument.
-/

namespace Store

/-! ## The admin page (`admin.js`) -/

/-- One element of the page: its `id` attribute (`""` when it has none), its class
list, its inline `style.display` and the message text it was built with (`""` for
every element that is not a loading overlay). -/
structure Element where
  id : String
  classes : List String
  display : String
  text : String
  deriving DecidableEq, Repr

/-- The first `a` inside a nav item, with its `href` attribute (`none` when absent). -/
structure Link where
  href : Option String
  deriving DecidableEq, Repr

/-- One `.sidebar-nav .nav-item`: the result of `item.querySelector('a')` and whether
`active` is in its class list. -/
structure NavItem where
  link : Option Link
  active : Bool
  deriving DecidableEq, Repr

/-- The part of the page `showView` reads and writes: the elements in document order
and the sidebar nav items in document order. -/
structure Document where
  elements : List Element
  navItems : List NavItem
  deriving DecidableEq, Repr

/-- The data loaders `showView` can start. -/
inductive Load where
  | loadDashboardStats
  | loadRecentProducts
  | loadProducts
  deriving DecidableEq, Repr

/-- What one call of `showView` leaves behind: the page, the loaders it started (in
call order) and the exception its own statements threw, if any (the loaders are
defined elsewhere and run after it). -/
structure ViewResult where
  doc : Document
  loads : List Load
  error : Option String
  deriving DecidableEq, Repr

/-- The element matches the selector `.admin-view`. -/
def isAdminView (e : Element) : Bool := decide ("admin-view" ∈ e.classes)

/-- The element is not hidden by its inline style. -/
def isVisible (e : Element) : Bool := decide (e.display ≠ "none")

/-- The body of the first loop of `showView` on one element of the page: an element
matching `.admin-view` gets `style.display = 'none'`. -/
def hideView (e : Element) : Element :=
  if isAdminView e then { e with display := "none" } else e

/-- The first loop of `showView`:
`document.querySelectorAll('.admin-view').forEach(view => view.style.display = 'none')`. -/
def hideAdminViews (es : List Element) : List Element :=
  es.map hideView

/-- The call `document.getElementById(id)`: the first element in document order carrying the
id; no element has the empty id. -/
def getElementById (es : List Element) (id : String) : Option Element :=
  if id = "" then none else es.find? fun e => decide (e.id = id)

/-- The assignment `document.getElementById(id).style.display = v`, on the page. -/
def setDisplayById : List Element → String → String → List Element
  | [], _, _ => []
  | e :: es, id, v =>
    if e.id = id then { e with display := v } :: es else e :: setDisplayById es id v

/-- The test `link && link.getAttribute('href') === target` of the nav loop. -/
def linkTargets (n : NavItem) (target : String) : Bool :=
  match n.link with
  | some l => decide (l.href = some target)
  | none => false

/-- The nav loop of `showView`: `classList.add('active')` on a match,
`classList.remove('active')` otherwise. -/
def updateNav (ns : List NavItem) (viewId : String) : List NavItem :=
  ns.map fun n => { n with active := linkTargets n ("#" ++ viewId) }

/-- The `switch (viewId)` of `showView`; it has no default case. -/
def viewLoads (viewId : String) : List Load :=
  if viewId = "dashboard-view" then [Load.loadDashboardStats, Load.loadRecentProducts]
  else if viewId = "products-view" then [Load.loadProducts]
  else if viewId = "product-form-view" then []
  else if viewId = "analytics-view" then []
  else []

/-- The function `showView(viewId)` of `admin.js`.  When neither `viewId` nor `dashboard-view` names
an element, `document.getElementById('dashboard-view').style` throws and the rest of
the function is skipped. -/
def showView (d : Document) (viewId : String) : ViewResult :=
  let hidden := hideAdminViews d.elements
  let finish (es : List Element) : ViewResult :=
    { doc := { elements := es, navItems := updateNav d.navItems viewId }
      loads := viewLoads viewId
      error := none }
  match getElementById hidden viewId with
  | some _ => finish (setDisplayById hidden viewId "block")
  | none =>
    match getElementById hidden "dashboard-view" with
    | some _ => finish (setDisplayById hidden "dashboard-view" "block")
    | none =>
      { doc := { elements := hidden, navItems := d.navItems }
        loads := []
        error := some "TypeError" }

/-- The function `handleHashChange()` of `admin.js`, with `window.location.hash` as argument. -/
def handleHashChange (d : Document) (hash : String) : ViewResult :=
  let hash := if hash = "" then "#dashboard-view" else hash
  showView d (hash.drop 1)

/-- The view ids the router knows (the cases of the `switch` in `showView`). -/
def knownViews : List String :=
  ["dashboard-view", "products-view", "product-form-view", "analytics-view"]

/-- The admin views of a page that are currently shown. -/
def visibleAdminViews (es : List Element) : List Element :=
  es.filter fun e => isAdminView e && isVisible e

/-- The nav items of a page that are marked active. -/
def activeNavItems (ns : List NavItem) : List NavItem :=
  ns.filter fun n => n.active

/-- An admin page with the four views, the notification container `auth.js` appends to
the body, and one sidebar link per view. -/
def adminPage : Document :=
  { elements :=
      [ ⟨"dashboard-view", ["admin-view"], "block", ""⟩,
        ⟨"products-view", ["admin-view"], "none", ""⟩,
        ⟨"product-form-view", ["admin-view"], "none", ""⟩,
        ⟨"analytics-view", ["admin-view"], "none", ""⟩,
        ⟨"notificationContainer", ["notification-container"], "", ""⟩ ]
    navItems :=
      [ ⟨some ⟨some "#dashboard-view"⟩, true⟩,
        ⟨some ⟨some "#products-view"⟩, false⟩,
        ⟨some ⟨some "#product-form-view"⟩, false⟩,
        ⟨some ⟨some "#analytics-view"⟩, false⟩ ] }

/-! ## The session manager (`auth.js`) -/

/-- The constant `ADMIN_EMAIL` of `auth.js`. -/
def ADMIN_EMAIL : String := "abdallahabubakar269@gmail.com"

/-- The constant `SESSION_TIMEOUT` of `auth.js`, in milliseconds (one hour). -/
def SESSION_TIMEOUT : Int := 60 * 60 * 1000

/-- The identity the provider reports; the code reads only `email`. -/
structure User where
  id : String
  email : String
  deriving DecidableEq, Repr

/-- The provider's session object: `session.user` (absent when `session?.user` is
undefined) and `new Date(session.created_at).getTime()` (`none` when that is `NaN`). -/
structure Session where
  user : Option User
  created_at : Option Int
  deriving DecidableEq, Repr

/-- The `data` of a successful `signInWithPassword`. -/
structure SignInData where
  user : User
  session : Session
  deriving DecidableEq, Repr

/-- What a pending `setTimeout` callback will do. -/
inductive TimerKind where
  | sessionExpiry
  | logoutRedirect
  | notificationDismiss
  | notificationRemove
  deriving DecidableEq, Repr

/-- A pending `setTimeout`: its handle, its callback and its delay in milliseconds. -/
structure Timer where
  handle : Nat
  kind : TimerKind
  delay : Int
  deriving DecidableEq, Repr

/-- One `showNotification(message, type)` call. -/
structure Notification where
  message : String
  type : String
  deriving DecidableEq, Repr

/-- The calls recorded in the trace: entries of `logout` and calls into the provider. -/
inductive Call where
  | logout
  | getSession
  | signInWithPassword (email password : String)
  | signOut
  deriving DecidableEq, Repr

/-- The state of one page: the document, the module variables `currentUser` and
`sessionTimer` of `auth.js`, the pending timers of the window, `sessionStorage`,
`body.dataset`, and a record of what was requested (notifications, navigations,
calls).  A timer handle is a positive integer, so `if (sessionTimer)` holds exactly
when `sessionTimer` is not `null`. -/
structure Browser where
  doc : Document
  bodyOverflow : String
  currentUser : Option User
  sessionTimer : Option Nat
  timers : List Timer
  nextHandle : Nat
  href : String
  authRedirect : Option String
  authState : Option String
  userRole : Option String
  notifications : List Notification
  navigations : List String
  trace : List Call
  deriving DecidableEq, Repr

/-- The state right after the scripts of a page have been evaluated:
`let currentUser = null; let sessionTimer = null;`, nothing pending. -/
def pageLoad (doc : Document) (href : String) (authRedirect : Option String) : Browser :=
  { doc := doc, bodyOverflow := "", currentUser := none, sessionTimer := none,
    timers := [], nextHandle := 1, href := href, authRedirect := authRedirect,
    authState := none, userRole := none, notifications := [], navigations := [],
    trace := [] }

/-- The element is a loading overlay: it carries the id `globalLoading`. -/
def isOverlay (e : Element) : Bool := decide (e.id = "globalLoading")

/-- The loading overlays present in the document. -/
def overlays (b : Browser) : List Element := b.doc.elements.filter isOverlay

/-- The function `hideLoading()` of `auth.js`: removes the first element with id `globalLoading`,
if any, and resets `body.style.overflow`. -/
def hideLoading (b : Browser) : Browser :=
  { b with
    doc := { b.doc with elements := b.doc.elements.eraseP isOverlay }
    bodyOverflow := "" }

/-- The function `showLoading(message)` of `auth.js` (the default `'Loading...'` applies when the
caller passes nothing). -/
def showLoading (b : Browser) (message : String) : Browser :=
  let b := hideLoading b
  { b with
    doc := { b.doc with
      elements := b.doc.elements ++ [⟨"globalLoading", ["loading-overlay"], "", message⟩] }
    bodyOverflow := "hidden" }

/-- The call `setTimeout(callback, delay)`: registers the callback under a fresh handle. -/
def setTimeout (b : Browser) (kind : TimerKind) (delay : Int) : Browser × Nat :=
  ({ b with timers := b.timers ++ [⟨b.nextHandle, kind, delay⟩]
            nextHandle := b.nextHandle + 1 }, b.nextHandle)

/-- The call `clearTimeout(handle)`: the timer with that handle is no longer pending. -/
def clearTimeout (b : Browser) (handle : Nat) : Browser :=
  { b with timers := b.timers.filter fun t => decide (t.handle ≠ handle) }

/-- The function `createNotificationContainer()` of `auth.js`. -/
def createNotificationContainer (b : Browser) : Browser :=
  { b with doc := { b.doc with
      elements := b.doc.elements ++
        [⟨"notificationContainer", ["notification-container"], "", ""⟩] } }

/-- The function `showNotification(message, type, duration)` of `auth.js`: finds or creates the
container, appends the notification and arms its auto-dismiss timer. -/
def showNotification (b : Browser) (message type : String) (duration : Int) : Browser :=
  let b := match getElementById b.doc.elements "notificationContainer" with
    | some _ => b
    | none => createNotificationContainer b
  let b := { b with notifications := b.notifications ++ [⟨message, type⟩] }
  (setTimeout b TimerKind.notificationDismiss duration).1

/-- The assignment `window.location.href = url`: the navigation is requested; the
running script continues and `window.location.href` still reads the old address. -/
def navigate (b : Browser) (url : String) : Browser :=
  { b with navigations := b.navigations ++ [url] }

/-- The function `updateAuthUI(user)` of `auth.js`. -/
def updateAuthUI (b : Browser) (user : Option User) : Browser :=
  match user with
  | some u =>
    { b with authState := some "loggedIn"
             userRole := some (if u.email = ADMIN_EMAIL then "admin" else "user") }
  | none => { b with authState := some "loggedOut", userRole := some "guest" }

/-- The function `startSessionTimer()` of `auth.js`. -/
def startSessionTimer (b : Browser) : Browser :=
  let b := match b.sessionTimer with
    | some h => clearTimeout b h
    | none => b
  let r := setTimeout b TimerKind.sessionExpiry SESSION_TIMEOUT
  { r.1 with sessionTimer := some r.2 }

/-- The function `logout()` of `auth.js`; `signOut` is the outcome of the provider's sign-out (an
error it returns and an exception it throws both reach the `catch`). -/
def logout (b : Browser) (signOut : Except String Unit) : Browser :=
  let b := { b with trace := b.trace ++ [Call.logout] }
  let b := showLoading b "Logging out..."
  let b := match b.sessionTimer with
    | some h => { clearTimeout b h with sessionTimer := none }
    | none => b
  let b := { b with trace := b.trace ++ [Call.signOut] }
  match signOut with
  | Except.ok _ =>
    let b := { b with currentUser := none }
    let b := showNotification b "You have been logged out successfully." "success" 5000
    (setTimeout b TimerKind.logoutRedirect 1000).1
  | Except.error _ =>
    let b := hideLoading b
    navigate b "index.html"

/-- The test `sessionAge > SESSION_TIMEOUT` of `checkAuthState`; a comparison with
`NaN` is false. -/
def sessionExpired (now : Int) (s : Session) : Bool :=
  match s.created_at with
  | some created => decide (now - created > SESSION_TIMEOUT)
  | none => false

/-- The function `checkAuthState()` of `auth.js`: `getSession` is the provider's answer, `now` is
`Date.now()`, `signOut` the outcome of the sign-out `logout` performs if called. -/
def checkAuthState (b : Browser) (getSession : Except String (Option Session))
    (now : Int) (signOut : Except String Unit) : Browser × Option User :=
  let b := showLoading b "Checking authentication..."
  let b := { b with trace := b.trace ++ [Call.getSession] }
  match getSession with
  | Except.error _ =>
    let b := hideLoading b
    (showNotification b "Authentication error occurred" "error" 5000, none)
  | Except.ok session =>
    let user := session.bind fun s => s.user
    let b := { b with currentUser := user }
    match session, user with
    | some s, some u =>
      if sessionExpired now s then
        let b := logout b signOut
        (showNotification b "Session expired. Please login again." "warning" 5000, none)
      else
        let b := startSessionTimer b
        let b := updateAuthUI b (some u)
        (hideLoading b, some u)
    | _, _ =>
      let b := updateAuthUI b none
      (hideLoading b, none)

/-- The test `haystack.includes(needle)` on strings. -/
def includes (haystack needle : String) : Bool :=
  haystack.data.tails.any fun t => needle.data.isPrefixOf t

/-- The message of the error `login` rethrows from its `catch`. -/
def loginErrorMessage (message : String) : String :=
  if includes message "Invalid login credentials" then
    "Invalid email or password. Please try again."
  else if includes message "Email not confirmed" then
    "Please verify your email address before logging in."
  else if message ≠ "" then message
  else "Login failed. Please try again."

/-- The expression `email.trim().toLowerCase()`, computed with the ASCII rules of
`String.trim` and `String.toLower`: it agrees with JavaScript on addresses made of
ASCII characters.  The result only enters the record of the provider call. -/
def normalizeEmail (email : String) : String := email.trim.toLower

/-- The `catch` block of `login`. -/
def loginCatch (b : Browser) (message : String) : Browser × Except String SignInData :=
  (hideLoading b, Except.error (loginErrorMessage message))

/-- The function `login(email, password)` of `auth.js`: `signIn` is the outcome of the provider's
`signInWithPassword` (consulted only when the call is made), `signOut` the outcome of
the sign-out `logout` performs if called.  The result is the value `login` resolves
with, or the message of the error it rejects with. -/
def login (b : Browser) (email password : String) (signIn : Except String SignInData)
    (signOut : Except String Unit) : Browser × Except String SignInData :=
  let b := showLoading b "Signing you in..."
  if email = "" ∨ password = "" then
    loginCatch b "Please enter both email and password."
  else
    let b := { b with
      trace := b.trace ++ [Call.signInWithPassword (normalizeEmail email) password] }
    match signIn with
    | Except.error message => loginCatch b message
    | Except.ok data =>
      if data.user.email ≠ ADMIN_EMAIL then
        let b := logout b signOut
        loginCatch b "Access denied. Admin privileges required."
      else
        let b := startSessionTimer b
        let b := hideLoading b
        let b := showNotification b "Welcome back! Login successful." "success" 5000
        let redirectUrl := b.authRedirect
        let b := { b with authRedirect := none }
        let target := match redirectUrl with
          | some url => if url = "" then "admin-dashboard.html" else url
          | none => "admin-dashboard.html"
        (navigate b target, Except.ok data)

/-- The `catch` block of `checkAdminAuth`. -/
def checkAdminAuthCatch (b : Browser) : Browser × Bool :=
  (navigate b "login.html?message=Authentication error. Please login again.", false)

/-- The function `checkAdminAuth()` of `auth.js`. -/
def checkAdminAuth (b : Browser) (getSession : Except String (Option Session))
    (signOut : Except String Unit) : Browser × Bool :=
  let b := { b with trace := b.trace ++ [Call.getSession] }
  match getSession with
  | Except.error _ => checkAdminAuthCatch b
  | Except.ok none =>
    let b := { b with authRedirect := some b.href }
    (navigate b "login.html?message=Access denied. Admin login required.", false)
  | Except.ok (some s) =>
    match s.user with
    | none => checkAdminAuthCatch b
    | some u =>
      if u.email ≠ ADMIN_EMAIL then
        let b := logout b signOut
        let b := { b with authRedirect := some b.href }
        (navigate b "login.html?message=Access denied. Admin privileges required.", false)
      else (b, true)

/-- A pending timer fires: it leaves the window's timer list and its callback runs.
Nothing happens when no timer with that handle is pending. -/
def fireTimer (b : Browser) (handle : Nat) (signOut : Except String Unit) : Browser :=
  match b.timers.find? fun t => decide (t.handle = handle) with
  | none => b
  | some t =>
    let b := clearTimeout b handle
    match t.kind with
    | TimerKind.sessionExpiry =>
      let b := logout b signOut
      showNotification b "Your session has expired for security reasons." "warning" 5000
    | TimerKind.logoutRedirect => navigate (hideLoading b) "index.html"
    | TimerKind.notificationDismiss => (setTimeout b TimerKind.notificationRemove 300).1
    | TimerKind.notificationRemove => b

/-- The things that can happen on a page, each with the outcomes of the external
calls it makes. -/
inductive AuthEvent where
  | startSessionTimer
  | logout (signOut : Except String Unit)
  | login (email password : String) (signIn : Except String SignInData)
      (signOut : Except String Unit)
  | checkAuthState (getSession : Except String (Option Session)) (now : Int)
      (signOut : Except String Unit)
  | checkAdminAuth (getSession : Except String (Option Session))
      (signOut : Except String Unit)
  | fireTimer (handle : Nat) (signOut : Except String Unit)

/-- One event applied to the page. -/
def step (b : Browser) : AuthEvent → Browser
  | AuthEvent.startSessionTimer => startSessionTimer b
  | AuthEvent.logout signOut => logout b signOut
  | AuthEvent.login email password signIn signOut => (login b email password signIn signOut).1
  | AuthEvent.checkAuthState getSession now signOut =>
    (checkAuthState b getSession now signOut).1
  | AuthEvent.checkAdminAuth getSession signOut => (checkAdminAuth b getSession signOut).1
  | AuthEvent.fireTimer handle signOut => fireTimer b handle signOut

/-- A sequence of events applied in order. -/
def run (b : Browser) (events : List AuthEvent) : Browser :=
  events.foldl step b

/-- The pending session-expiry timers of the window. -/
def expiryTimers (b : Browser) : List Timer :=
  b.timers.filter fun t => decide (t.kind = TimerKind.sessionExpiry)

/-- How many times `logout` has been entered. -/
def logoutCalls (b : Browser) : Nat := b.trace.count Call.logout

/-- A call of one of the two loading-overlay functions. -/
inductive LoadingCall where
  | showLoading (message : String)
  | hideLoading
  deriving DecidableEq, Repr

/-- One loading-overlay call applied to the page. -/
def stepLoading (b : Browser) : LoadingCall → Browser
  | LoadingCall.showLoading message => showLoading b message
  | LoadingCall.hideLoading => hideLoading b

/-- A sequence of loading-overlay calls applied in order. -/
def runLoading (b : Browser) (calls : List LoadingCall) : Browser :=
  calls.foldl stepLoading b

/-- The overlay element `showLoading(message)` builds. -/
def overlayFor (message : String) : Element :=
  ⟨"globalLoading", ["loading-overlay"], "", message⟩

/-! ## The product form and the product list (`admin.js`) -/

/-- How an awaited backend call ends: it resolves without an error, it resolves with
an `error` object, or the promise rejects. -/
inductive Outcome where
  | ok
  | error (message : String)
  | thrown (message : String)
  deriving DecidableEq, Repr

/-- The file chosen in `#imageFile`; the code reads only its name. -/
structure ImageFile where
  name : String
  deriving DecidableEq, Repr

/-- The fields of `#productForm` the submit handler reads: the values of the inputs,
the two checkboxes and `fileInput.files[0]`. -/
structure ProductForm where
  productId : String
  title : String
  description : String
  price : String
  stock : String
  category : String
  featured : Bool
  active : Bool
  imageUrl : String
  file : Option ImageFile
  deriving DecidableEq, Repr

/-- The object `newProduct` handed to `update` or `insert`.  The field `price` holds
the string given to `parseFloat` and `stock` the string given to `parseInt(...) || 0`;
the parsed numbers are not computed here. -/
structure ProductRecord where
  title : String
  description : String
  price : String
  stock : String
  category : String
  featured : Bool
  active : Bool
  image : String
  deriving DecidableEq, Repr

/-- What the admin page asks of the backend and of itself, in the order it happens. -/
inductive Action where
  | upload (fileName : String)
  | update (id : String) (record : ProductRecord)
  | insert (record : ProductRecord)
  | delete (id : String)
  | setHash (hash : String)
  | loadProducts
  | loadDashboardStats
  deriving DecidableEq, Repr

/-- The admin page around the product form: the browser state of `auth.js`, the form,
the `disabled` flag of its submit button and the record of actions. -/
structure AdminState where
  browser : Browser
  form : ProductForm
  submitDisabled : Bool
  actions : List Action
  deriving DecidableEq, Repr

/-- The outcomes of the backend calls one handler run can make, and the clock. -/
structure Backend where
  now : Int
  upload : Outcome
  publicUrl : String → String
  save : Outcome
  delete : Outcome
  list : Outcome
  stats : Outcome

/-- The form after `form.reset()`, its default values taken to be blank. -/
def resetForm : ProductForm :=
  { productId := "", title := "", description := "", price := "", stock := "",
    category := "", featured := false, active := false, imageUrl := "", file := none }

/-- The call `showNotification(message, type)` made from `admin.js`, with the default
duration. -/
def notify (a : AdminState) (message type : String) : AdminState :=
  { a with browser := showNotification a.browser message type 5000 }

/-- The function `loadProducts()` of `admin.js`: the query runs inside `try`, so an
error and a rejection both end in the notification.  The table it renders and the
variable `products` are not part of this state. -/
def loadProducts (a : AdminState) (list : Outcome) : AdminState :=
  let a := { a with actions := a.actions ++ [Action.loadProducts] }
  match list with
  | Outcome.ok => a
  | _ => notify a "Failed to load products." "error"

/-- The function `loadDashboardStats()` of `admin.js`; the four counters it writes are
not part of this state. -/
def loadDashboardStats (a : AdminState) (stats : Outcome) : AdminState :=
  let a := { a with browser := showLoading a.browser "Loading store stats..." }
  let a := { a with actions := a.actions ++ [Action.loadDashboardStats] }
  let a := match stats with
    | Outcome.ok => a
    | _ => notify a "Could not load store statistics." "error"
  { a with browser := hideLoading a.browser }

/-- The object `newProduct` the submit handler builds from the form and the image
address. -/
def newProduct (f : ProductForm) (imageUrl : String) : ProductRecord :=
  { title := f.title, description := f.description, price := f.price, stock := f.stock,
    category := f.category, featured := f.featured, active := f.active, image := imageUrl }

/-- The `try`/`catch`/`finally` at the end of the submit handler. -/
def saveProduct (a : AdminState) (env : Backend) (imageUrl : String) : AdminState :=
  let id := a.form.productId
  let record := newProduct a.form imageUrl
  let a := { a with actions := a.actions ++
    [if id ≠ "" then Action.update id record else Action.insert record] }
  let a := match env.save with
    | Outcome.ok =>
      let a := notify a
        (if id ≠ "" then "Product updated successfully" else "Product added successfully")
        "success"
      let a := { a with actions := a.actions ++ [Action.setHash "#products-view"] }
      let a := loadProducts a env.list
      loadDashboardStats a env.stats
    | _ => notify a "Error saving product" "error"
  { a with browser := hideLoading a.browser, submitDisabled := false, form := resetForm }

/-- The `submit` handler of `#productForm` in `setupEventListeners()` of `admin.js`. -/
def submitProductForm (a : AdminState) (env : Backend) : AdminState :=
  let a := { a with submitDisabled := true }
  let a := { a with browser := showLoading a.browser "Saving product..." }
  let f := a.form
  if f.title = "" ∨ f.price = "" ∨ f.category = "" then
    let a := { a with browser := hideLoading a.browser }
    let a := notify a "Please fill in all required fields: Title, Price, and Category."
      "error"
    { a with submitDisabled := false }
  else if f.productId = "" ∧ f.file = none then
    let a := { a with browser := hideLoading a.browser }
    let a := notify a "Please select an image for the new product." "error"
    { a with submitDisabled := false }
  else
    match f.file with
    | some file =>
      let fileName := toString env.now ++ "_" ++ file.name
      let a := { a with actions := a.actions ++ [Action.upload fileName] }
      match env.upload with
      | Outcome.error _ =>
        let a := { a with browser := hideLoading a.browser }
        notify a "Image upload failed." "error"
      | Outcome.thrown _ => a
      | Outcome.ok => saveProduct a env (env.publicUrl fileName)
    | none => saveProduct a env f.imageUrl

/-- The function `deleteProduct(id)` of `admin.js`; `confirmed` is the answer to the
`confirm` dialog.  The delete is awaited outside any `try`, so a rejection ends the
function on the spot. -/
def deleteProduct (a : AdminState) (env : Backend) (id : String) (confirmed : Bool) :
    AdminState :=
  if confirmed = false then a
  else
    let a := { a with browser := showLoading a.browser "Deleting product..." }
    let a := { a with actions := a.actions ++ [Action.delete id] }
    match env.delete with
    | Outcome.thrown _ => a
    | Outcome.error _ =>
      let a := { a with browser := hideLoading a.browser }
      notify a "Failed to delete product" "error"
    | Outcome.ok =>
      let a := { a with browser := hideLoading a.browser }
      let a := notify a "Product deleted successfully" "success"
      let a := loadProducts a env.list
      loadDashboardStats a env.stats

/-- The action is a network write of the product form: an upload, an insert or an
update. -/
def isFormCall : Action → Bool
  | Action.upload _ => true
  | Action.update _ _ => true
  | Action.insert _ => true
  | _ => false

/-- The action starts a reload of the list or of the stats. -/
def isReload : Action → Bool
  | Action.loadProducts => true
  | Action.loadDashboardStats => true
  | _ => false

/-- The submission passes the two validation checks of the handler. -/
def formValid (f : ProductForm) : Bool :=
  decide (f.title ≠ "" ∧ f.price ≠ "" ∧ f.category ≠ "") &&
    !(decide (f.productId = "") && decide (f.file = none))

/-! ## The storefront product list (`products-page.js`) -/

/-- A product as the backend returns it.  The fields `price` and `stock` hold the text
JavaScript gives the number when it is written into a template; `none` stands for a
missing (null) field. -/
structure Product where
  id : String
  title : String
  description : Option String
  price : String
  stock : Option String
  category : Option String
  featured : Bool
  active : Bool
  image : String
  deriving DecidableEq, Repr

/-- The white space the card template of `displayProductsPage` starts with. -/
def cardLead : String :=
  "\n" ++
    "        "

/-- The card template from the start of the card to the product id. -/
def cardSeg0 : String :=
  "<div class=\"product-card\" data-product-id=\""

/-- The card template between the product id and the badge. -/
def cardSeg1 : String :=
  "\">\n" ++
    "            "

/-- The card template between the badge and the image address. -/
def cardSeg2 : String :=
  "\n" ++
    "            <img src=\""

/-- The card template between the image address and the `alt` text. -/
def cardSeg3 : String :=
  "\" alt=\""

/-- The card template after the `alt` text, up to the value of `onerror`. -/
def cardSeg4a : String :=
  "\" class=\"product-img\" \n" ++
    "                 loading=\"lazy\"\n" ++
    "                 onerror=\""

/-- The value of the `onerror` attribute in the card template. -/
def cardSeg4b : String :=
  "this.src=\x27https://images.unsplash.com/photo-1567401893414-76b7b1e5a7a5?i" ++
    "xlib=rb-1.2.1&auto=format&fit=crop&w=600&q=80\x27"

/-- The card template from the end of the image tag to the price. -/
def cardSeg4c : String :=
  "\">\n" ++
    "            <div class=\"product-details\">\n" ++
    "                <div class=\"product-price\">"

/-- The card template between the price and the title. -/
def cardSeg5 : String :=
  "</div>\n" ++
    "                <h3>"

/-- The card template between the title and the description. -/
def cardSeg6 : String :=
  "</h3>\n" ++
    "                <p class=\"product-description\">"

/-- The card template between the description and the category. -/
def cardSeg7 : String :=
  "</p>\n" ++
    "                <div class=\"product-features\">\n" ++
    "                    <span class=\"product-category\">"

/-- The card template after the category, up to the stock icon. -/
def cardSeg8a : String :=
  "</span>\n" ++
    "                    <span class=\"product-stock\">\n" ++
    "                        "

/-- The card template from the stock icon to the stock. -/
def cardSeg8b : String :=
  "<i class=\"fas fa-box\"></i>\n" ++
    "                        "

/-- The card template after the stock, up to the start of the button. -/
def cardSeg9a : String :=
  " in stock\n" ++
    "                    </span>\n" ++
    "                </div>\n" ++
    "                <button class=\"btn whatsapp-btn\">\n"

/-- The button of the card template. -/
def cardSeg9b : String :=
  "                    <i class=\"fab fa-whatsapp\"></i>\n" ++
    "                    Inquire on WhatsApp\n" ++
    "                </button>"

/-- The two end tags that close the card in the card template. -/
def cardSeg9c : String :=
  "\n" ++
    "            </div>\n" ++
    "        </div>"

/-- The white space the card template ends with. -/
def cardTrail : String :=
  "\n" ++
    "    "

/-- The markup `displayProductsPage` writes when there is nothing to show. -/
def noProductsHTML : String :=
  "\n" ++
    "                <div class=\"no-products\">\n" ++
    "                    <i class=\"fas fa-search no-products-icon\"></i>\n" ++
    "                    <h3>No Products Found</h3>\n" ++
    "                    <p>Try adjusting your search criteria or browse diff" ++
    "erent categories</p>\n" ++
    "                    <button class=\"btn clear-filters-btn\">\n" ++
    "                        <i class=\"fas fa-times\"></i>\n" ++
    "                        Clear All Filters\n" ++
    "                    </button>\n" ++
    "                </div>\n" ++
    "            "

/-- The text of `product.description || 'Premium quality wears ...'`. -/
def descriptionText (p : Product) : String :=
  match p.description with
  | some d => if d = "" then "Premium quality wears designed for style and comfort." else d
  | none => "Premium quality wears designed for style and comfort."

/-- The text of `product.category || 'Fashion'`. -/
def categoryText (p : Product) : String :=
  match p.category with
  | some c => if c = "" then "Fashion" else c
  | none => "Fashion"

/-- The text of `product.stock || 0`: a missing stock and the number zero both read
`0`. -/
def stockText (p : Product) : String :=
  match p.stock with
  | some s => s
  | none => "0"

/-- The text of `product.featured ? '<div class="product-badge">Featured</div>' : ''`. -/
def badgeHTML (p : Product) : String :=
  if p.featured then "<div class=\"product-badge\">Featured</div>" else ""

/-- The card template from the start tag of the card to the start of the description,
with the product's fields written in as they are.  The price goes through
`formatCurrency`, which is defined elsewhere and is a parameter here. -/
def cardHead (formatCurrency : String → String) (p : Product) : String :=
  cardSeg0 ++ p.id ++ cardSeg1 ++ badgeHTML p ++ cardSeg2 ++ p.image ++ cardSeg3 ++
    p.title ++ cardSeg4a ++ cardSeg4b ++ cardSeg4c ++ formatCurrency p.price ++ cardSeg5 ++
    p.title ++ cardSeg6

/-- The card template from the end of the description to the end tag of the card. -/
def cardTail (p : Product) : String :=
  cardSeg7 ++ categoryText p ++ cardSeg8a ++ cardSeg8b ++ stockText p ++ cardSeg9a ++
    cardSeg9b ++ cardSeg9c

/-- The markup of one card, from its start tag to its end tag, as the template of
`displayProductsPage` builds it. -/
def cardElement (formatCurrency : String → String) (p : Product) : String :=
  cardHead formatCurrency p ++ descriptionText p ++ cardTail p

/-- The string the template literal of `displayProductsPage` yields for one product:
the card between the white space the literal starts and ends with. -/
def cardHTML (formatCurrency : String → String) (p : Product) : String :=
  cardLead ++ cardElement formatCurrency p ++ cardTrail

/-- The string `productsHTML`: `products.map(product => ...).join('')`. -/
def productsHTML (formatCurrency : String → String) (products : List Product) : String :=
  String.join (products.map (cardHTML formatCurrency))

/-- The state of the reader that splits markup into the element children it creates:
the children finished so far (each by its markup), the markup of the child being read
(latest character first), the number of elements open, and, while a tag is being
read, whether it is an end tag, whether its name is still being read, the name read
(latest character first) and the quote character of the attribute value being read. -/
structure Scan where
  children : List String
  cur : List Char
  depth : Nat
  inTag : Bool
  closing : Bool
  nameOpen : Bool
  tagName : List Char
  quote : Option Char
  deriving DecidableEq, Repr

/-- The elements that have no end tag. -/
def voidElements : List String :=
  ["area", "base", "br", "col", "embed", "hr", "img", "input", "link", "meta", "source",
    "track", "wbr"]

/-- The reader between tags, with the given children, child markup and depth. -/
def inText (children : List String) (cur : List Char) (depth : Nat) : Scan :=
  { children := children, cur := cur, depth := depth, inTag := false, closing := false,
    nameOpen := false, tagName := [], quote := none }

/-- The reader inside a double-quoted attribute value of a start tag. -/
def inAttr (children : List String) (cur : List Char) (depth : Nat) (tagName : List Char) :
    Scan :=
  { children := children, cur := cur, depth := depth, inTag := true, closing := false,
    nameOpen := false, tagName := tagName, quote := some '"' }

/-- The end of a tag: an end tag closes the innermost open element (the child is
finished when that was the outermost one, and an end tag with nothing open is
dropped), a void element stays a leaf, any other start tag opens an element. -/
def endTag (s : Scan) : Scan :=
  if s.closing then
    if s.depth = 0 then inText s.children [] 0
    else if s.depth = 1 then inText (s.children ++ [String.mk s.cur.reverse]) [] 0
    else inText s.children s.cur (s.depth - 1)
  else if String.mk s.tagName.reverse ∈ voidElements then
    if s.depth = 0 then inText (s.children ++ [String.mk s.cur.reverse]) [] 0
    else inText s.children s.cur s.depth
  else inText s.children s.cur (s.depth + 1)

/-- One character of markup.  Between tags `<` starts a tag and any other character
is text (dropped outside every element).  In a tag, a quote starts an attribute
value that runs to the same quote, `>` outside a value ends the tag, and a `<` that
no tag name, `/`, `!` or `?` follows was text after all. -/
def scanStep (s : Scan) (c : Char) : Scan :=
  if s.inTag then
    match s.quote with
    | some q => { s with cur := c :: s.cur, quote := if c = q then none else some q }
    | none =>
      if c = '>' then endTag { s with cur := c :: s.cur }
      else if c = '"' ∨ c = Char.ofNat 39 then
        { s with cur := c :: s.cur, quote := some c, nameOpen := false }
      else if s.nameOpen then
        if c.isAlphanum ∨ c = '-' then
          { s with cur := c :: s.cur, tagName := c.toLower :: s.tagName }
        else if c = '/' ∧ s.tagName = [] ∧ s.closing = false then
          { s with cur := c :: s.cur, closing := true }
        else if s.tagName = [] ∧ s.closing = false ∧ c ≠ '!' ∧ c ≠ '?' then
          inText s.children (if s.depth = 0 then [] else c :: s.cur) s.depth
        else { s with cur := c :: s.cur, nameOpen := false }
      else { s with cur := c :: s.cur }
  else if c = '<' then
    { s with cur := c :: s.cur, inTag := true, closing := false, nameOpen := true,
             tagName := [], quote := none }
  else if s.depth = 0 then s
  else { s with cur := c :: s.cur }

/-- The reader run over a piece of markup. -/
def scan (s : Scan) (markup : List Char) : Scan :=
  markup.foldl scanStep s

/-- The element children once the markup has been read to its end: an element still
open is closed there, a tag cut off by the end is dropped. -/
def scanEnd (s : Scan) : List String :=
  if s.depth = 0 then s.children else s.children ++ [String.mk s.cur.reverse]

/-- The element children a container gets from the assignment `innerHTML = markup`,
each given by its markup.  This stands for the browser's parser on the markup at hand:
start tags, end tags, void elements and quoted attribute values; comments, character
references and the repair of wrongly nested tags are not modelled. -/
def parseChildren (markup : String) : List String :=
  scanEnd (scan (inText [] [] 0) markup.data)

/-- The child is a product card: its start tag is the one the card template writes. -/
def isProductCard (child : String) : Bool :=
  "<div class=\"product-card\"".data.isPrefixOf child.data

/-- The products page: the module variables `currentPage` and `allProducts`, the
element children of `#productsGrid` (each given by its markup), the inline `display`
of `#productsLoading` and of `#loadMoreContainer` (`none` when the element is absent),
the text of `#productsCount` (`none` when absent) and the exception the last call
threw, if any. -/
structure ProductsPage where
  currentPage : Nat
  allProducts : List Product
  grid : List String
  productsLoading : Option String
  loadMoreContainer : Option String
  productsCount : Option String
  error : Option String
  deriving DecidableEq, Repr

/-- The constant `productsPerPage` of `products-page.js`. -/
def productsPerPage : Nat := 12

/-- The call `array.slice(start, end)` for `0 ≤ start ≤ end`. -/
def slice (l : List Product) (start stop : Nat) : List Product :=
  (l.drop start).take (stop - start)

/-- The function `displayProductsPage(products, containerId, append)` on the element
children of the container.  The assignment `container.innerHTML += productsHTML`
re-creates the children already there from their own markup, which gives them back,
and adds the children of the new markup. -/
def displayProductsPage (formatCurrency : String → String) (grid : List String)
    (products : List Product) (append : Bool) : List String :=
  let grid := if append then grid else parseChildren ""
  if products.length = 0 then
    if append then grid else parseChildren noProductsHTML
  else
    if append then grid ++ parseChildren (productsHTML formatCurrency products)
    else parseChildren (productsHTML formatCurrency products)

/-- The text `updateProductsCount(count)` writes. -/
def productsCountText (count : Nat) : String :=
  toString count ++ " product" ++ (if count ≠ 1 then "s" else "") ++ " found"

/-- The function `loadAllProducts()` of `products-page.js`, with the list
`fetchProducts(filters)` resolved with. -/
def loadAllProducts (formatCurrency : String → String) (p : ProductsPage)
    (fetched : List Product) : ProductsPage :=
  { currentPage := 1
    allProducts := fetched
    grid := displayProductsPage formatCurrency p.grid (slice fetched 0 productsPerPage) false
    productsLoading := p.productsLoading.map fun _ => "none"
    loadMoreContainer := p.loadMoreContainer.map fun _ =>
      if fetched.length > productsPerPage then "block" else "none"
    productsCount := p.productsCount.map fun _ => productsCountText fetched.length
    error := none }

/-- The function `loadMoreProducts()` of `products-page.js`.  Its last statement writes
to `#loadMoreContainer` without a null check and throws when that element is absent. -/
def loadMoreProducts (formatCurrency : String → String) (p : ProductsPage) : ProductsPage :=
  let currentPage := p.currentPage + 1
  let startIndex := (currentPage - 1) * productsPerPage
  let endIndex := startIndex + productsPerPage
  let nextProducts := slice p.allProducts startIndex endIndex
  let p := { p with
    currentPage := currentPage
    grid := displayProductsPage formatCurrency p.grid nextProducts true
    error := none }
  if endIndex ≥ p.allProducts.length then
    match p.loadMoreContainer with
    | some _ => { p with loadMoreContainer := some "none" }
    | none => { p with error := some "TypeError" }
  else p

/-- The string carries no double quote, so written into a double-quoted attribute
value it stays inside it. -/
def noQuote (s : String) : Bool := decide ('"' ∉ s.data)

/-- The string carries no `<`, so written between tags it stays text. -/
def noTag (s : String) : Bool := decide ('<' ∉ s.data)

/-- The fields the card template writes out carry no markup of their own: no double
quote in the three that go into attribute values (id, image address, title) and no
`<` in the five that go between tags (formatted price, title, description, category,
stock). -/
def plainProduct (formatCurrency : String → String) (p : Product) : Bool :=
  noQuote p.id && noQuote p.image && noQuote p.title && noTag (formatCurrency p.price) &&
    noTag p.title && noTag (descriptionText p) && noTag (categoryText p) &&
    noTag (stockText p)

/-! ### Concrete pages and identities used in the examples -/

/-- The privileged identity. -/
def adminUser : User := ⟨"u-admin", ADMIN_EMAIL⟩

/-- An identity the provider knows that is not the privileged one. -/
def visitorUser : User := ⟨"u-visitor", "visitor@example.com"⟩

/-- A freshly loaded admin page. -/
def freshAdminPage : Browser :=
  pageLoad adminPage "https://shop.example/admin-dashboard.html#products-view" none

/-- The admin page after `checkAuthState` has found a live, ten-minute-old session of
the privileged identity. -/
def adminSignedIn : Browser :=
  (checkAuthState freshAdminPage (Except.ok (some ⟨some adminUser, some 0⟩)) 600000
    (Except.ok ())).1

/-- The timer discipline of the page: at most one session-expiry timer is pending, its
handle is the one stored in `sessionTimer`, and every pending handle is older than the
next handle the window will give out. -/
def TimerInv (b : Browser) : Prop :=
  (expiryTimers b).length ≤ 1 ∧
  (∀ t ∈ expiryTimers b, b.sessionTimer = some t.handle) ∧
  ∀ t ∈ b.timers, t.handle < b.nextHandle

/-- The admin page with a blank product form and an enabled submit button. -/
def freshAdminState : AdminState :=
  { browser := freshAdminPage, form := resetForm, submitDisabled := false, actions := [] }

/-- A backend on which every call succeeds. -/
def okBackend : Backend :=
  { now := 1700000000000, upload := Outcome.ok
    publicUrl := fun fileName => "https://cdn.example/products/" ++ fileName
    save := Outcome.ok, delete := Outcome.ok, list := Outcome.ok, stats := Outcome.ok }

/-- A new product with the required fields filled in and no image chosen. -/
def shirtNoImage : ProductForm :=
  { resetForm with title := "Shirt", price := "19.99", category := "Tops" }

/-- The same new product with an image chosen. -/
def shirtWithImage : ProductForm :=
  { shirtNoImage with file := some ⟨"shirt.png"⟩ }

/-- An edit of product `42` with no new image chosen. -/
def editShirt : ProductForm :=
  { shirtNoImage with productId := "42", imageUrl := "https://x/y.png" }

/-- The products page before anything was loaded. -/
def emptyProductsPage : ProductsPage :=
  { currentPage := 1, allProducts := [], grid := [], productsLoading := some "none",
    loadMoreContainer := some "none", productsCount := some "", error := none }

/-- A price formatter for the examples. -/
def priceTag (price : String) : String := "NGN " ++ price

/-- The product numbered `n` of the example catalogue. -/
def sampleProduct (n : Nat) : Product :=
  { id := toString n, title := "Item", description := none, price := "19.99",
    stock := some "3", category := none, featured := false, active := true,
    image := "https://cdn.example/item.png" }

/-- A catalogue of thirty products. -/
def sampleCatalogue : List Product := (List.range 30).map sampleProduct

/-- The end tags that close the description paragraph, the details block and the card
they are written into. -/
def markupCardEnd : String := "</p></div></div>"

/-- The start tags of another card, of its details block and of a paragraph. -/
def markupGhostStart : String :=
  "<div class=\"product-card\" data-product-id=\"ghost\">" ++
    "<div class=\"product-details\"><p>"

/-- A description that ends the card it is written into and starts another card. -/
def markupDescription : String := markupCardEnd ++ markupGhostStart

/-- A product with that description. -/
def markupProduct : Product :=
  { sampleProduct 1 with description := some markupDescription }

/-! ### Facts about the page operations -/

theorem hideView_id (e : Element) : (hideView e).id = e.id := by
  unfold hideView
  split <;> rfl

theorem isAdminView_hideView (e : Element) : isAdminView (hideView e) = isAdminView e := by
  unfold hideView
  split <;> rfl

theorem hideView_of_adminView (e : Element) (h : isAdminView e = true) :
    hideView e = { e with display := "none" } := by
  unfold hideView
  rw [if_pos h]

theorem find_hideAdminViews (es : List Element) (v : String) :
    (hideAdminViews es).find? (fun e => decide (e.id = v)) =
      (es.find? fun e => decide (e.id = v)).map hideView := by
  unfold hideAdminViews
  induction es with
  | nil => rfl
  | cons a as ih =>
    rw [List.map_cons, List.find?_cons, List.find?_cons, hideView_id]
    by_cases ha : a.id = v
    · simp [ha]
    · simp only [ha, decide_False]
      exact ih

theorem getElementById_hideAdminViews (es : List Element) (v : String) :
    getElementById (hideAdminViews es) v = (getElementById es v).map hideView := by
  unfold getElementById
  by_cases hv : v = ""
  · simp [hv]
  · simp only [hv, if_false]
    exact find_hideAdminViews es v

theorem hideAdminViews_hidden (es : List Element) :
    ∀ e ∈ hideAdminViews es, isAdminView e = true → e.display = "none" := by
  intro e he hadm
  unfold hideAdminViews at he
  rw [List.mem_map] at he
  obtain ⟨a, _, rfl⟩ := he
  rw [isAdminView_hideView] at hadm
  rw [hideView_of_adminView a hadm]

theorem visibleAdminViews_of_hidden (es : List Element)
    (h : ∀ e ∈ es, isAdminView e = true → e.display = "none") :
    visibleAdminViews es = [] := by
  unfold visibleAdminViews
  rw [List.filter_eq_nil_iff]
  intro e he
  by_cases hadm : isAdminView e = true
  · simp [hadm, isVisible, h e he hadm]
  · simp [hadm]

/-- Showing the first element with id `v` in a page whose admin views are all hidden
leaves that element as the only visible admin view, when it is an admin view. -/
theorem visibleAdminViews_setDisplayById (es : List Element) (v : String) (e : Element)
    (hhid : ∀ a ∈ es, isAdminView a = true → a.display = "none")
    (hfind : es.find? (fun a => decide (a.id = v)) = some e)
    (hadm : isAdminView e = true) :
    visibleAdminViews (setDisplayById es v "block") = [{ e with display := "block" }] := by
  induction es with
  | nil => simp at hfind
  | cons a as ih =>
    by_cases ha : a.id = v
    · have hae : a = e := by simpa [List.find?, ha] using hfind
      subst hae
      have htl : visibleAdminViews as = [] :=
        visibleAdminViews_of_hidden as fun x hx => hhid x (List.mem_cons_of_mem _ hx)
      have hadm2 : isAdminView { a with display := "block" } = true := hadm
      have hvis2 : isVisible { a with display := "block" } = true := by
        simp [isVisible]
      unfold visibleAdminViews at htl ⊢
      rw [setDisplayById, if_pos ha, List.filter_cons, htl]
      simp only [hadm2, hvis2, Bool.and_self, if_true]
    · have hfind2 : as.find? (fun x => decide (x.id = v)) = some e := by
        simpa [List.find?, ha] using hfind
      have ih2 := ih (fun x hx => hhid x (List.mem_cons_of_mem _ hx)) hfind2
      have hahid : (isAdminView a && isVisible a) = false := by
        by_cases haa : isAdminView a = true
        · simp [haa, isVisible, hhid a (List.mem_cons_self _ _) haa]
        · simp [haa]
      unfold visibleAdminViews at ih2 ⊢
      rw [setDisplayById, if_neg ha, List.filter_cons, ih2]
      simp only [hahid, Bool.false_eq_true, if_false]

theorem mem_updateNav_active (ns : List NavItem) (viewId : String) :
    ∀ n ∈ updateNav ns viewId, n.active = linkTargets n ("#" ++ viewId) := by
  intro n hn
  unfold updateNav at hn
  rw [List.mem_map] at hn
  obtain ⟨a, _, rfl⟩ := hn
  rfl

theorem updateNav_links (ns : List NavItem) (viewId : String) :
    (updateNav ns viewId).map (fun n => n.link) = ns.map (fun n => n.link) := by
  unfold updateNav
  rw [List.map_map]
  rfl

/-- What `showView` does for a view id that names an admin view of the page. -/
theorem showView_of_adminView (d : Document) (v : String) (e : Element)
    (hfind : getElementById d.elements v = some e) (hadm : isAdminView e = true) :
    (showView d v).error = none ∧
    visibleAdminViews (showView d v).doc.elements = [{ e with display := "block" }] ∧
    (showView d v).doc.navItems = updateNav d.navItems v ∧
    (showView d v).loads = viewLoads v := by
  have hv : v ≠ "" := by
    intro h
    simp [getElementById, h] at hfind
  have hget : getElementById (hideAdminViews d.elements) v
      = some { e with display := "none" } := by
    rw [getElementById_hideAdminViews, hfind, Option.map_some', hideView_of_adminView e hadm]
  have hfind2 : (hideAdminViews d.elements).find? (fun a => decide (a.id = v))
      = some { e with display := "none" } := by
    simpa [getElementById, hv] using hget
  have hadm2 : isAdminView { e with display := "none" } = true := hadm
  have hvis := visibleAdminViews_setDisplayById (hideAdminViews d.elements) v
    { e with display := "none" } (hideAdminViews_hidden d.elements) hfind2 hadm2
  have hs : showView d v =
      { doc := { elements := setDisplayById (hideAdminViews d.elements) v "block"
                 navItems := updateNav d.navItems v }
        loads := viewLoads v
        error := none } := by
    simp only [showView, hget]
  rw [hs]
  exact ⟨rfl, hvis, rfl, rfl⟩

theorem handleHashChange_fragment (d : Document) (v : String) (hv : v ∈ knownViews) :
    handleHashChange d ("#" ++ v) = showView d v := by
  simp only [knownViews, List.mem_cons, List.mem_singleton, List.not_mem_nil, or_false] at hv
  rcases hv with rfl | rfl | rfl | rfl <;> rfl

theorem handleHashChange_empty (d : Document) :
    handleHashChange d "" = showView d "dashboard-view" := rfl

theorem adminPage_views :
    ∀ w ∈ knownViews,
      ∃ e, getElementById adminPage.elements w = some e ∧ isAdminView e = true := by
  intro w hw
  simp only [knownViews, List.mem_cons, List.mem_singleton, List.not_mem_nil, or_false] at hw
  rcases hw with rfl | rfl | rfl | rfl
  · exact ⟨_, rfl, rfl⟩
  · exact ⟨_, rfl, rfl⟩
  · exact ⟨_, rfl, rfl⟩
  · exact ⟨_, rfl, rfl⟩

/-! ### The view router -/

/-- C1, evaluated where it fails: `notificationContainer` is not a view id, the page
holds the dashboard view, and yet after `handleHashChange` on `#notificationContainer`
no admin view is visible at all: the dashboard panel stays hidden, because
`getElementById` found an element and the fallback branch was skipped. -/
theorem handleHashChange_element_id_hides_dashboard :
    "notificationContainer" ∉ knownViews ∧
    (getElementById adminPage.elements "dashboard-view").map isAdminView = some true ∧
    (handleHashChange adminPage "#notificationContainer").error = none ∧
    visibleAdminViews (handleHashChange adminPage "#notificationContainer").doc.elements
      = [] ∧
    (getElementById (handleHashChange adminPage "#notificationContainer").doc.elements
      "dashboard-view").map (fun e => e.display) = some "none" := by
  decide

/-- C2: on a page that holds the four admin views, for every known fragment (and for
the empty fragment, which stands for the dashboard) `handleHashChange` raises no error,
leaves exactly one admin view visible, namely the view the fragment names, and marks a
sidebar nav item active exactly when its link targets that view; the links themselves
are untouched. -/
theorem handleHashChange_known_view (d : Document) (v hash : String)
    (hv : v ∈ knownViews)
    (hhash : hash = "#" ++ v ∨ (hash = "" ∧ v = "dashboard-view"))
    (hpage : ∀ w ∈ knownViews,
      ∃ e, getElementById d.elements w = some e ∧ isAdminView e = true) :
    ∃ e, e.id = v ∧ isAdminView e = true ∧
      (handleHashChange d hash).error = none ∧
      visibleAdminViews (handleHashChange d hash).doc.elements
        = [{ e with display := "block" }] ∧
      (∀ n ∈ (handleHashChange d hash).doc.navItems,
        n.active = true ↔ linkTargets n ("#" ++ v) = true) ∧
      (handleHashChange d hash).doc.navItems.map (fun n => n.link)
        = d.navItems.map (fun n => n.link) := by
  have hcall : handleHashChange d hash = showView d v := by
    rcases hhash with rfl | ⟨rfl, rfl⟩
    · exact handleHashChange_fragment d v hv
    · exact handleHashChange_empty d
  obtain ⟨e, hfind, hadm⟩ := hpage v hv
  obtain ⟨herr, hvis, hnav, _⟩ := showView_of_adminView d v e hfind hadm
  have hid : e.id = v := by
    unfold getElementById at hfind
    split at hfind
    · cases hfind
    · simpa using List.find?_some hfind
  refine ⟨e, hid, hadm, ?_, ?_, ?_, ?_⟩
  · rw [hcall]; exact herr
  · rw [hcall]; exact hvis
  · intro n hn
    rw [hcall, hnav] at hn
    rw [mem_updateNav_active d.navItems v n hn]
  · rw [hcall, hnav]
    exact updateNav_links d.navItems v

/-- C2 at the fragment `#products-view` of the example admin page. -/
theorem handleHashChange_known_view_witness :
    ∃ e, e.id = "products-view" ∧ isAdminView e = true ∧
      (handleHashChange adminPage "#products-view").error = none ∧
      visibleAdminViews (handleHashChange adminPage "#products-view").doc.elements
        = [{ e with display := "block" }] ∧
      (∀ n ∈ (handleHashChange adminPage "#products-view").doc.navItems,
        n.active = true ↔ linkTargets n ("#" ++ "products-view") = true) ∧
      (handleHashChange adminPage "#products-view").doc.navItems.map (fun n => n.link)
        = adminPage.navItems.map (fun n => n.link) :=
  handleHashChange_known_view adminPage "products-view" "#products-view" (by decide)
    (Or.inl rfl) adminPage_views

/-- C3, evaluated where it fails: for the unknown fragment `#reports-view` the
dashboard panel is the one shown, the page has a nav item linking to `#dashboard-view`,
and no nav item at all is marked active: the nav loop compares with the raw
`viewId`. -/
theorem handleHashChange_unknown_no_active_nav :
    "reports-view" ∉ knownViews ∧
    getElementById adminPage.elements "reports-view" = none ∧
    (visibleAdminViews (handleHashChange adminPage "#reports-view").doc.elements).map
      (fun e => e.id) = ["dashboard-view"] ∧
    (adminPage.navItems.filter fun n => linkTargets n "#dashboard-view").length = 1 ∧
    activeNavItems (handleHashChange adminPage "#reports-view").doc.navItems = [] := by
  decide

/-- C4, evaluated where it fails: for the unknown fragment `#settings-view` the
dashboard panel is shown as the fallback and no loader is started, while the fragment
`#dashboard-view` starts the stats load and the recent-items load: the `switch` reads
the raw `viewId` and has no default case. -/
theorem handleHashChange_unknown_no_load :
    "settings-view" ∉ knownViews ∧
    getElementById adminPage.elements "settings-view" = none ∧
    (visibleAdminViews (handleHashChange adminPage "#settings-view").doc.elements).map
      (fun e => e.id) = ["dashboard-view"] ∧
    (handleHashChange adminPage "#settings-view").loads = [] ∧
    (handleHashChange adminPage "#dashboard-view").loads
      = [Load.loadDashboardStats, Load.loadRecentProducts] := by
  decide


/-! ### Facts about the session manager -/

theorem showNotification_timers (b : Browser) (m t : String) (d : Int) :
    (showNotification b m t d).timers
      = b.timers ++ [⟨b.nextHandle, TimerKind.notificationDismiss, d⟩] := by
  unfold showNotification
  split <;> rfl

theorem showNotification_sessionTimer (b : Browser) (m t : String) (d : Int) :
    (showNotification b m t d).sessionTimer = b.sessionTimer := by
  unfold showNotification
  split <;> rfl

theorem showNotification_currentUser (b : Browser) (m t : String) (d : Int) :
    (showNotification b m t d).currentUser = b.currentUser := by
  unfold showNotification
  split <;> rfl

theorem showNotification_userRole (b : Browser) (m t : String) (d : Int) :
    (showNotification b m t d).userRole = b.userRole := by
  unfold showNotification
  split <;> rfl

theorem showNotification_navigations (b : Browser) (m t : String) (d : Int) :
    (showNotification b m t d).navigations = b.navigations := by
  unfold showNotification
  split <;> rfl

theorem showNotification_trace (b : Browser) (m t : String) (d : Int) :
    (showNotification b m t d).trace = b.trace := by
  unfold showNotification
  split <;> rfl

theorem showNotification_nextHandle (b : Browser) (m t : String) (d : Int) :
    (showNotification b m t d).nextHandle = b.nextHandle + 1 := by
  unfold showNotification
  split <;> rfl

/-- The timers `logout` leaves pending: the old ones without the one recorded in
`sessionTimer`, plus, when the sign-out succeeded, the dismiss timer of its
notification and its own redirect timer. -/
theorem logout_timers (b : Browser) (signOut : Except String Unit) :
    ∃ added : List Timer,
      (∀ t ∈ added, t.kind ≠ TimerKind.sessionExpiry) ∧
      (logout b signOut).timers =
        (match b.sessionTimer with
          | some h => b.timers.filter fun t => decide (t.handle ≠ h)
          | none => b.timers) ++ added := by
  cases signOut with
  | error e =>
    refine ⟨[], by simp, ?_⟩
    cases h : b.sessionTimer <;>
      simp [logout, h, showLoading, hideLoading, navigate, clearTimeout]
  | ok u =>
    refine ⟨[⟨b.nextHandle, TimerKind.notificationDismiss, 5000⟩,
        ⟨b.nextHandle + 1, TimerKind.logoutRedirect, 1000⟩], by simp, ?_⟩
    cases h : b.sessionTimer <;>
      simp [logout, h, showLoading, hideLoading, setTimeout, clearTimeout,
        showNotification_timers, showNotification_nextHandle]

theorem logout_sessionTimer (b : Browser) (signOut : Except String Unit) :
    (logout b signOut).sessionTimer = none := by
  cases signOut <;> cases h : b.sessionTimer <;>
    simp [logout, h, showLoading, hideLoading, navigate, clearTimeout, setTimeout,
      showNotification_sessionTimer]

theorem logout_userRole (b : Browser) (signOut : Except String Unit) :
    (logout b signOut).userRole = b.userRole := by
  cases signOut <;> cases h : b.sessionTimer <;>
    simp [logout, h, showLoading, hideLoading, navigate, clearTimeout, setTimeout,
      showNotification_userRole]

theorem logout_trace (b : Browser) (signOut : Except String Unit) :
    (logout b signOut).trace = b.trace ++ [Call.logout, Call.signOut] := by
  cases signOut <;> cases h : b.sessionTimer <;>
    simp [logout, h, showLoading, hideLoading, navigate, clearTimeout, setTimeout,
      showNotification_trace]

theorem timerInv_pageLoad (doc : Document) (href : String) (r : Option String) :
    TimerInv (pageLoad doc href r) := by
  simp [TimerInv, pageLoad, expiryTimers]

theorem timerInv_setTimeout_other (b : Browser) (k : TimerKind) (d : Int)
    (hk : k ≠ TimerKind.sessionExpiry) (h : TimerInv b) :
    TimerInv (setTimeout b k d).1 := by
  obtain ⟨h1, h2, h3⟩ := h
  have he : expiryTimers (setTimeout b k d).1 = expiryTimers b := by
    simp [expiryTimers, setTimeout, List.filter_append, hk]
  refine ⟨he ▸ h1, ?_, ?_⟩
  · intro t ht
    rw [he] at ht
    exact h2 t ht
  · intro t ht
    simp only [setTimeout, List.mem_append, List.mem_singleton] at ht ⊢
    rcases ht with ht | rfl
    · exact Nat.lt_succ_of_lt (h3 t ht)
    · exact Nat.lt_succ_self _

theorem timerInv_showNotification (b : Browser) (m t : String) (d : Int)
    (h : TimerInv b) : TimerInv (showNotification b m t d) := by
  unfold showNotification
  split
  · exact timerInv_setTimeout_other _ _ _ (by decide) h
  · exact timerInv_setTimeout_other _ _ _ (by decide) h

theorem timerInv_clearTimeout (b : Browser) (handle : Nat) (h : TimerInv b) :
    TimerInv (clearTimeout b handle) := by
  obtain ⟨h1, h2, h3⟩ := h
  have hsub : (expiryTimers (clearTimeout b handle)).Sublist (expiryTimers b) := by
    unfold expiryTimers clearTimeout
    exact List.Sublist.filter _ (List.filter_sublist _)
  refine ⟨le_trans hsub.length_le h1, ?_, ?_⟩
  · intro t ht
    exact h2 t (hsub.subset ht)
  · intro t ht
    exact h3 t (List.mem_of_mem_filter ht)

/-- Cancelling the timer recorded in `sessionTimer` leaves no expiry timer pending. -/
theorem expiryTimers_clear_sessionTimer (b : Browser) (handle : Nat) (h : TimerInv b)
    (hs : b.sessionTimer = some handle) :
    expiryTimers (clearTimeout b handle) = [] := by
  obtain ⟨_, h2, _⟩ := h
  unfold expiryTimers clearTimeout
  rw [List.filter_eq_nil_iff]
  intro t ht hk
  have hmem : t ∈ expiryTimers b := by
    unfold expiryTimers
    exact List.mem_filter.mpr ⟨List.mem_of_mem_filter ht, hk⟩
  have := h2 t hmem
  rw [hs] at this
  have hne := (List.mem_filter.mp ht).2
  simp at hne
  exact hne (Option.some.inj this).symm

theorem expiryTimers_of_sessionTimer_none (b : Browser) (h : TimerInv b)
    (hs : b.sessionTimer = none) : expiryTimers b = [] := by
  obtain ⟨_, h2, _⟩ := h
  rw [List.eq_nil_iff_forall_not_mem]
  intro t ht
  have := h2 t ht
  rw [hs] at this
  cases this

/-- The `if (sessionTimer) { clearTimeout(sessionTimer); sessionTimer = null; }` of
`logout` keeps the discipline and leaves no expiry timer pending. -/
theorem timerInv_disarm (b : Browser) (handle : Nat) (h : TimerInv b)
    (hs : b.sessionTimer = some handle) :
    TimerInv { clearTimeout b handle with sessionTimer := none } := by
  have he := expiryTimers_clear_sessionTimer b handle h hs
  have hc := timerInv_clearTimeout b handle h
  refine ⟨?_, ?_, hc.2.2⟩
  · show (expiryTimers (clearTimeout b handle)).length ≤ 1
    rw [he]; simp
  · intro t ht
    have : t ∈ expiryTimers (clearTimeout b handle) := ht
    rw [he] at this
    cases this

theorem timerInv_congr (b c : Browser) (ht : c.timers = b.timers)
    (hs : c.sessionTimer = b.sessionTimer) (hn : c.nextHandle = b.nextHandle)
    (h : TimerInv b) : TimerInv c := by
  unfold TimerInv expiryTimers at *
  rw [ht, hs, hn]
  exact h

theorem timerInv_logout (b : Browser) (signOut : Except String Unit) (h : TimerInv b) :
    TimerInv (logout b signOut) := by
  unfold logout
  cases signOut with
  | error e =>
    cases hs : b.sessionTimer with
    | none =>
      simp only [showLoading, hideLoading, navigate, hs]
      exact timerInv_congr b _ rfl hs.symm rfl h
    | some handle =>
      simp only [showLoading, hideLoading, navigate, hs]
      exact timerInv_disarm b handle h hs
  | ok u =>
    cases hs : b.sessionTimer with
    | none =>
      simp only [showLoading, hideLoading, hs]
      exact timerInv_setTimeout_other _ _ _ (by decide)
        (timerInv_showNotification _ _ _ _ (timerInv_congr b _ rfl hs.symm rfl h))
    | some handle =>
      simp only [showLoading, hideLoading, hs]
      exact timerInv_setTimeout_other _ _ _ (by decide)
        (timerInv_showNotification _ _ _ _ (timerInv_disarm b handle h hs))


theorem timerInv_startSessionTimer (b : Browser) (h : TimerInv b) :
    TimerInv (startSessionTimer b) ∧
    expiryTimers (startSessionTimer b)
      = [⟨b.nextHandle, TimerKind.sessionExpiry, SESSION_TIMEOUT⟩] ∧
    (startSessionTimer b).sessionTimer = some b.nextHandle ∧
    ∀ t ∈ b.timers, t.kind = TimerKind.sessionExpiry →
      t ∉ (startSessionTimer b).timers := by
  -- the page once the previous timer, if any, has been cancelled
  have key : ∀ c : Browser, TimerInv c → expiryTimers c = [] →
      c.nextHandle = b.nextHandle →
      (∀ t ∈ b.timers, t.kind = TimerKind.sessionExpiry → t ∉ c.timers) →
      let r := setTimeout c TimerKind.sessionExpiry SESSION_TIMEOUT
      TimerInv { r.1 with sessionTimer := some r.2 } ∧
      expiryTimers { r.1 with sessionTimer := some r.2 }
        = [⟨b.nextHandle, TimerKind.sessionExpiry, SESSION_TIMEOUT⟩] ∧
      some r.2 = some b.nextHandle ∧
      ∀ t ∈ b.timers, t.kind = TimerKind.sessionExpiry → t ∉ r.1.timers := by
    intro c hc he hn hgone
    have hexp : expiryTimers
        { (setTimeout c TimerKind.sessionExpiry SESSION_TIMEOUT).1 with
          sessionTimer := some (setTimeout c TimerKind.sessionExpiry SESSION_TIMEOUT).2 }
        = [⟨b.nextHandle, TimerKind.sessionExpiry, SESSION_TIMEOUT⟩] := by
      unfold expiryTimers at he ⊢
      simp [setTimeout, List.filter_append, he, hn]
    refine ⟨⟨?_, ?_, ?_⟩, hexp, by simp [setTimeout, hn], ?_⟩
    · rw [hexp]; simp
    · intro t ht
      rw [hexp] at ht
      simp only [List.mem_singleton] at ht
      subst ht
      simp [setTimeout, hn]
    · intro t ht
      simp only [setTimeout, List.mem_append, List.mem_singleton] at ht ⊢
      rcases ht with ht | rfl
      · exact Nat.lt_succ_of_lt (hc.2.2 t ht)
      · exact Nat.lt_succ_self _
    · intro t ht hk hmem
      simp only [setTimeout, List.mem_append, List.mem_singleton] at hmem
      rcases hmem with hmem | rfl
      · exact hgone t ht hk hmem
      · have := h.2.2 _ ht
        simp [hn] at this
  unfold startSessionTimer
  cases hs : b.sessionTimer with
  | none =>
    have he := expiryTimers_of_sessionTimer_none b h hs
    have hgone : ∀ t ∈ b.timers, t.kind = TimerKind.sessionExpiry → t ∉ b.timers := by
      intro t ht hk
      have : t ∈ expiryTimers b := List.mem_filter.mpr ⟨ht, by simpa using hk⟩
      rw [he] at this
      cases this
    exact key b h he rfl hgone
  | some handle =>
    have he := expiryTimers_clear_sessionTimer b handle h hs
    have hgone : ∀ t ∈ b.timers, t.kind = TimerKind.sessionExpiry →
        t ∉ (clearTimeout b handle).timers := by
      intro t ht hk hmem
      have : t ∈ expiryTimers (clearTimeout b handle) :=
        List.mem_filter.mpr ⟨hmem, by simpa using hk⟩
      rw [he] at this
      cases this
    exact key (clearTimeout b handle) (timerInv_clearTimeout b handle h) he rfl hgone


theorem timerInv_rearm (b : Browser) (h : TimerInv b) : TimerInv (startSessionTimer b) :=
  (timerInv_startSessionTimer b h).1

theorem timerInv_hideLoading (b : Browser) (h : TimerInv b) : TimerInv (hideLoading b) :=
  timerInv_congr b _ rfl rfl rfl h

theorem timerInv_showLoading (b : Browser) (m : String) (h : TimerInv b) :
    TimerInv (showLoading b m) :=
  timerInv_congr b _ rfl rfl rfl h

theorem timerInv_navigate (b : Browser) (url : String) (h : TimerInv b) :
    TimerInv (navigate b url) :=
  timerInv_congr b _ rfl rfl rfl h

theorem timerInv_updateAuthUI (b : Browser) (u : Option User) (h : TimerInv b) :
    TimerInv (updateAuthUI b u) := by
  cases u <;> exact timerInv_congr b _ rfl rfl rfl h

theorem timerInv_login (b : Browser) (email password : String)
    (signIn : Except String SignInData) (signOut : Except String Unit) (h : TimerInv b) :
    TimerInv (login b email password signIn signOut).1 := by
  have h1 : TimerInv (showLoading b "Signing you in...") := timerInv_showLoading b _ h
  unfold login
  simp only
  split
  · exact timerInv_hideLoading _ h1
  · split
    · exact timerInv_hideLoading _ (timerInv_congr _ _ rfl rfl rfl h1)
    · split
      · exact timerInv_hideLoading _
          (timerInv_logout _ _ (timerInv_congr _ _ rfl rfl rfl h1))
      · refine timerInv_navigate _ _ (timerInv_congr _ _ rfl rfl rfl
          (timerInv_showNotification _ _ _ _ (timerInv_hideLoading _
            (timerInv_rearm _ (timerInv_congr _ _ rfl rfl rfl h1)))))

theorem timerInv_checkAuthState (b : Browser) (getSession : Except String (Option Session))
    (now : Int) (signOut : Except String Unit) (h : TimerInv b) :
    TimerInv (checkAuthState b getSession now signOut).1 := by
  have h1 : TimerInv (showLoading b "Checking authentication...") :=
    timerInv_showLoading b _ h
  unfold checkAuthState
  simp only
  split
  · exact timerInv_showNotification _ _ _ _
      (timerInv_hideLoading _ (timerInv_congr _ _ rfl rfl rfl h1))
  · split
    · split
      · exact timerInv_showNotification _ _ _ _
          (timerInv_logout _ _ (timerInv_congr _ _ rfl rfl rfl h1))
      · exact timerInv_hideLoading _ (timerInv_updateAuthUI _ _
          (timerInv_rearm _ (timerInv_congr _ _ rfl rfl rfl h1)))
    · exact timerInv_hideLoading _ (timerInv_updateAuthUI _ _
        (timerInv_congr _ _ rfl rfl rfl h1))

theorem timerInv_checkAdminAuth (b : Browser) (getSession : Except String (Option Session))
    (signOut : Except String Unit) (h : TimerInv b) :
    TimerInv (checkAdminAuth b getSession signOut).1 := by
  unfold checkAdminAuth
  simp only
  split
  · exact timerInv_navigate _ _ (timerInv_congr _ _ rfl rfl rfl h)
  · exact timerInv_navigate _ _ (timerInv_congr _ _ rfl rfl rfl h)
  · split
    · exact timerInv_navigate _ _ (timerInv_congr _ _ rfl rfl rfl h)
    · split
      · exact timerInv_navigate _ _ (timerInv_congr _ _ rfl rfl rfl
          (timerInv_logout _ _ (timerInv_congr _ _ rfl rfl rfl h)))
      · exact timerInv_congr _ _ rfl rfl rfl h

theorem timerInv_fireTimer (b : Browser) (handle : Nat) (signOut : Except String Unit)
    (h : TimerInv b) : TimerInv (fireTimer b handle signOut) := by
  have hc := timerInv_clearTimeout b handle h
  unfold fireTimer
  split
  · exact h
  · split
    · exact timerInv_showNotification _ _ _ _ (timerInv_logout _ _ hc)
    · exact timerInv_navigate _ _ (timerInv_hideLoading _ hc)
    · exact timerInv_setTimeout_other _ _ _ (by decide) hc
    · exact hc

theorem timerInv_step (b : Browser) (e : AuthEvent) (h : TimerInv b) :
    TimerInv (step b e) := by
  cases e with
  | startSessionTimer => exact timerInv_rearm b h
  | logout signOut => exact timerInv_logout b signOut h
  | login email password signIn signOut => exact timerInv_login b _ _ _ _ h
  | checkAuthState getSession now signOut => exact timerInv_checkAuthState b _ _ _ h
  | checkAdminAuth getSession signOut => exact timerInv_checkAdminAuth b _ _ h
  | fireTimer handle signOut => exact timerInv_fireTimer b _ _ h

theorem timerInv_run (events : List AuthEvent) :
    ∀ b : Browser, TimerInv b → TimerInv (run b events) := by
  induction events with
  | nil => intro b h; exact h
  | cons e es ih =>
    intro b h
    exact ih (step b e) (timerInv_step b e h)


theorem logout_currentUser_ok (b : Browser) (u : Unit) :
    (logout b (Except.ok u)).currentUser = none := by
  cases h : b.sessionTimer <;>
    simp [logout, h, showLoading, hideLoading, clearTimeout, setTimeout,
      showNotification_currentUser]

theorem logout_currentUser_error (b : Browser) (e : String) :
    (logout b (Except.error e)).currentUser = b.currentUser := by
  cases h : b.sessionTimer <;>
    simp [logout, h, showLoading, hideLoading, clearTimeout, navigate]

theorem logout_navigations (b : Browser) (signOut : Except String Unit) :
    (logout b signOut).navigations =
      b.navigations ++ (match signOut with
        | Except.ok _ => []
        | Except.error _ => ["index.html"]) := by
  cases signOut <;> cases h : b.sessionTimer <;>
    simp [logout, h, showLoading, hideLoading, navigate, clearTimeout, setTimeout,
      showNotification_navigations]

/-- Every expiry timer pending after `logout` was pending before and is not the one
`sessionTimer` recorded. -/
theorem logout_expiry_timers (b : Browser) (signOut : Except String Unit) :
    ∀ t ∈ (logout b signOut).timers, t.kind = TimerKind.sessionExpiry →
      t ∈ b.timers ∧ b.sessionTimer ≠ some t.handle := by
  obtain ⟨added, hadd, heq⟩ := logout_timers b signOut
  intro t ht hk
  rw [heq, List.mem_append] at ht
  rcases ht with ht | ht
  · cases hs : b.sessionTimer with
    | none =>
      rw [hs] at ht
      exact ⟨ht, by simp⟩
    | some h =>
      rw [hs] at ht
      have := List.mem_filter.mp ht
      refine ⟨this.1, ?_⟩
      intro heq2
      have hh := this.2
      simp at hh
      exact hh (Option.some.inj heq2).symm
  · exact absurd hk (hadd t ht)

theorem login_non_admin_eq (b : Browser) (email password : String) (data : SignInData)
    (signOut : Except String Unit) (hemail : email ≠ "") (hpw : password ≠ "")
    (hne : data.user.email ≠ ADMIN_EMAIL) :
    login b email password (Except.ok data) signOut =
      (hideLoading (logout
          { showLoading b "Signing you in..." with
            trace := (showLoading b "Signing you in...").trace ++
              [Call.signInWithPassword (normalizeEmail email) password] } signOut),
        Except.error "Access denied. Admin privileges required.") := by
  have hmsg : loginErrorMessage "Access denied. Admin privileges required."
      = "Access denied. Admin privileges required." := by decide
  unfold login
  simp [hemail, hpw, hne, loginCatch, hmsg]

theorem filter_eraseP (p : Element → Bool) (l : List Element) :
    (l.eraseP p).filter p = (l.filter p).tail := by
  induction l with
  | nil => rfl
  | cons a as ih =>
    by_cases h : p a = true
    · simp [List.eraseP_cons, List.filter_cons, h]
    · simp [List.eraseP_cons, List.filter_cons, h, ih]

theorem overlays_hideLoading (b : Browser) :
    overlays (hideLoading b) = (overlays b).tail :=
  filter_eraseP isOverlay b.doc.elements

theorem overlays_showLoading (b : Browser) (m : String) :
    overlays (showLoading b m) = (overlays b).tail ++ [overlayFor m] := by
  unfold overlays showLoading
  simp only [List.filter_append]
  congr 1
  exact filter_eraseP isOverlay b.doc.elements

theorem overlays_stepLoading (b : Browser) (c : LoadingCall)
    (h : (overlays b).length ≤ 1) : (overlays (stepLoading b c)).length ≤ 1 := by
  cases c with
  | showLoading m =>
    show (overlays (showLoading b m)).length ≤ 1
    rw [overlays_showLoading]
    simp only [List.length_append, List.length_tail, List.length_singleton]
    omega
  | hideLoading =>
    show (overlays (hideLoading b)).length ≤ 1
    rw [overlays_hideLoading, List.length_tail]
    omega

theorem overlays_runLoading (calls : List LoadingCall) :
    ∀ b : Browser, (overlays b).length ≤ 1 →
      (overlays (runLoading b calls)).length ≤ 1 := by
  induction calls with
  | nil => intro b h; exact h
  | cons c cs ih =>
    intro b h
    exact ih (stepLoading b c) (overlays_stepLoading b c h)


/-! ### The session manager -/

/-- C5 as stated fails: on a page whose UI role is `admin` (a live session of the
privileged identity was found by `checkAuthState`), a sign-in that succeeds with
another identity is rejected with the access-denied error and the UI role is still
`admin` afterwards, since neither `login` nor `logout` writes it. -/
theorem login_non_admin_keeps_admin_role :
    adminSignedIn.userRole = some "admin" ∧
    visitorUser.email ≠ ADMIN_EMAIL ∧
    (login adminSignedIn "visitor@example.com" "pw"
      (Except.ok ⟨visitorUser, ⟨some visitorUser, some 600000⟩⟩) (Except.ok ())).2
      = Except.error "Access denied. Admin privileges required." ∧
    (login adminSignedIn "visitor@example.com" "pw"
      (Except.ok ⟨visitorUser, ⟨some visitorUser, some 600000⟩⟩) (Except.ok ())).1.userRole
      = some "admin" :=
  ⟨by decide, by decide, rfl, by decide⟩

/-- C5, amended: when the provider's sign-in is made and succeeds with an identity
whose email differs from `ADMIN_EMAIL`, `login` enters `logout` once and fails with the
access-denied error; afterwards `sessionTimer` is null, every pending expiry timer was
already pending before the call and is not the one `sessionTimer` recorded (so none is
pending when the page kept the timer discipline), the only navigation the call can
have requested is the one of `logout` to `index.html`, the UI role is the one the page
had before the call, and `currentUser` is null when the provider's sign-out
succeeded. -/
theorem login_non_admin (b : Browser) (email password : String) (data : SignInData)
    (signOut : Except String Unit) (hemail : email ≠ "") (hpw : password ≠ "")
    (hne : data.user.email ≠ ADMIN_EMAIL) :
    (login b email password (Except.ok data) signOut).2
      = Except.error "Access denied. Admin privileges required." ∧
    logoutCalls (login b email password (Except.ok data) signOut).1 = logoutCalls b + 1 ∧
    (login b email password (Except.ok data) signOut).1.sessionTimer = none ∧
    (∀ t ∈ (login b email password (Except.ok data) signOut).1.timers,
      t.kind = TimerKind.sessionExpiry → t ∈ b.timers ∧ b.sessionTimer ≠ some t.handle) ∧
    ((login b email password (Except.ok data) signOut).1.navigations = b.navigations ∨
      (login b email password (Except.ok data) signOut).1.navigations
        = b.navigations ++ ["index.html"]) ∧
    (login b email password (Except.ok data) signOut).1.userRole = b.userRole ∧
    (signOut = Except.ok () →
      (login b email password (Except.ok data) signOut).1.currentUser = none) ∧
    (TimerInv b →
      expiryTimers (login b email password (Except.ok data) signOut).1 = []) := by
  rw [login_non_admin_eq b email password data signOut hemail hpw hne]
  refine ⟨rfl, ?_, ?_, ?_, ?_, ?_, ?_, ?_⟩
  · show List.count Call.logout (logout _ signOut).trace = _
    rw [logout_trace]
    simp [logoutCalls, showLoading, hideLoading, List.count_append, List.count_cons]
  · show (logout _ signOut).sessionTimer = none
    exact logout_sessionTimer _ _
  · intro t ht hk
    have hold := logout_expiry_timers _ signOut t ht hk
    exact hold
  · show (logout _ signOut).navigations = _ ∨ (logout _ signOut).navigations = _
    rw [logout_navigations]
    cases signOut with
    | ok u => left; simp [showLoading, hideLoading]
    | error e => right; rfl
  · show (logout _ signOut).userRole = _
    rw [logout_userRole]
    rfl
  · intro hso
    subst hso
    show (logout _ (Except.ok ())).currentUser = none
    exact logout_currentUser_ok _ _
  · intro hinv
    rw [List.eq_nil_iff_forall_not_mem]
    intro t ht
    have hm := List.mem_filter.mp ht
    have hk : t.kind = TimerKind.sessionExpiry := by simpa using hm.2
    have hold := logout_expiry_timers _ signOut t hm.1 hk
    have hrec : b.sessionTimer = some t.handle :=
      hinv.2.1 t (List.mem_filter.mpr ⟨hold.1, hm.2⟩)
    exact hold.2 hrec

/-- C5, amended, at a fresh page and a visitor's credentials. -/
theorem login_non_admin_witness :
    (login freshAdminPage "visitor@example.com" "pw"
      (Except.ok ⟨visitorUser, ⟨some visitorUser, some 0⟩⟩) (Except.ok ())).2
      = Except.error "Access denied. Admin privileges required." ∧
    logoutCalls (login freshAdminPage "visitor@example.com" "pw"
      (Except.ok ⟨visitorUser, ⟨some visitorUser, some 0⟩⟩) (Except.ok ())).1
      = logoutCalls freshAdminPage + 1 ∧
    (login freshAdminPage "visitor@example.com" "pw"
      (Except.ok ⟨visitorUser, ⟨some visitorUser, some 0⟩⟩) (Except.ok ())).1.sessionTimer
      = none ∧
    (login freshAdminPage "visitor@example.com" "pw"
      (Except.ok ⟨visitorUser, ⟨some visitorUser, some 0⟩⟩) (Except.ok ())).1.userRole
      = freshAdminPage.userRole :=
  have h := login_non_admin freshAdminPage "visitor@example.com" "pw"
    ⟨visitorUser, ⟨some visitorUser, some 0⟩⟩ (Except.ok ()) (by decide) (by decide)
    (by decide)
  ⟨h.1, h.2.1, h.2.2.1, h.2.2.2.2.2.1⟩

/-- C6 as stated fails at the boundary: a session created at time `0` and checked at
time `SESSION_TIMEOUT` has an age equal to the lifetime, and `checkAuthState` returns
its user without entering `logout`. -/
theorem checkAuthState_boundary_not_expired :
    (3600000 : Int) ≥ 0 + SESSION_TIMEOUT ∧
    (checkAuthState freshAdminPage (Except.ok (some ⟨some adminUser, some 0⟩)) 3600000
      (Except.ok ())).2 = some adminUser ∧
    logoutCalls (checkAuthState freshAdminPage (Except.ok (some ⟨some adminUser, some 0⟩))
      3600000 (Except.ok ())).1 = 0 := by
  decide

/-- C6, amended: for a live provider session with a creation time, `checkAuthState`
returns null and enters `logout` exactly once when `now` is later than the creation
time plus `SESSION_TIMEOUT`; up to and including that instant it returns the session's
user and does not enter `logout`. -/
theorem checkAuthState_expiry (b : Browser) (s : Session) (u : User) (created now : Int)
    (signOut : Except String Unit) (hu : s.user = some u)
    (hc : s.created_at = some created) :
    (now > created + SESSION_TIMEOUT →
      (checkAuthState b (Except.ok (some s)) now signOut).2 = none ∧
      logoutCalls (checkAuthState b (Except.ok (some s)) now signOut).1
        = logoutCalls b + 1) ∧
    (now ≤ created + SESSION_TIMEOUT →
      (checkAuthState b (Except.ok (some s)) now signOut).2 = some u ∧
      logoutCalls (checkAuthState b (Except.ok (some s)) now signOut).1
        = logoutCalls b) := by
  constructor
  · intro hlt
    have hexp : sessionExpired now s = true := by
      simp only [sessionExpired, hc, decide_eq_true_eq]
      omega
    simp only [checkAuthState, Option.bind, hu, hexp, if_true]
    refine ⟨trivial, ?_⟩
    simp [logoutCalls, showNotification_trace, logout_trace, showLoading, hideLoading,
      List.count_append, List.count_cons]
  · intro hle
    have hexp : sessionExpired now s = false := by
      simp only [sessionExpired, hc, decide_eq_false_iff_not]
      omega
    simp only [checkAuthState, Option.bind, hu, hexp]
    refine ⟨rfl, ?_⟩
    cases hs : b.sessionTimer <;>
      simp [logoutCalls, showLoading, hideLoading, startSessionTimer, updateAuthUI,
        setTimeout, clearTimeout, hs, List.count_append, List.count_cons]

/-- C6, amended, at a session created at time `0`, checked one millisecond after the
lifetime has passed. -/
theorem checkAuthState_expiry_witness :
    (checkAuthState freshAdminPage (Except.ok (some ⟨some adminUser, some 0⟩)) 3600001
      (Except.ok ())).2 = none ∧
    logoutCalls (checkAuthState freshAdminPage (Except.ok (some ⟨some adminUser, some 0⟩))
      3600001 (Except.ok ())).1 = logoutCalls freshAdminPage + 1 :=
  (checkAuthState_expiry freshAdminPage ⟨some adminUser, some 0⟩ adminUser 0 3600001
    (Except.ok ()) rfl rfl).1 (by decide)

/-- C7 as stated fails: for a session of the privileged identity that is two hours
old, which `checkAuthState` treats as expired, `checkAdminAuth` returns true. -/
theorem checkAdminAuth_expired_session_true :
    sessionExpired 7200000 ⟨some adminUser, some 0⟩ = true ∧
    (checkAdminAuth freshAdminPage (Except.ok (some ⟨some adminUser, some 0⟩))
      (Except.ok ())).2 = true := by
  decide

/-- C7, amended: `checkAdminAuth` returns true exactly when the provider reports,
without error, a session whose user's email equals `ADMIN_EMAIL`, whatever the age of
that session; for no session, another identity or a provider error it returns
false. -/
theorem checkAdminAuth_true_iff (b : Browser) (getSession : Except String (Option Session))
    (signOut : Except String Unit) :
    (checkAdminAuth b getSession signOut).2 = true ↔
      ∃ s u, getSession = Except.ok (some s) ∧ s.user = some u ∧ u.email = ADMIN_EMAIL := by
  unfold checkAdminAuth
  cases getSession with
  | error e => simp [checkAdminAuthCatch]
  | ok session =>
    cases session with
    | none => simp
    | some s =>
      cases hu : s.user with
      | none => simp [checkAdminAuthCatch, hu]
      | some u =>
        by_cases he : u.email = ADMIN_EMAIL
        · simp [hu, he]
        · simp [hu, he]

/-- C8, evaluated where it fails: on a page whose `currentUser` is set, a `logout` whose
provider sign-out reports an error cancels the timer and requests the navigation to
`index.html`, but leaves `currentUser` as it was; the same call with a successful
sign-out clears it. -/
theorem logout_signOut_error_keeps_currentUser :
    adminSignedIn.currentUser = some adminUser ∧
    (logout adminSignedIn (Except.error "network")).sessionTimer = none ∧
    (logout adminSignedIn (Except.error "network")).navigations = ["index.html"] ∧
    (logout adminSignedIn (Except.error "network")).currentUser = some adminUser ∧
    (logout adminSignedIn (Except.ok ())).currentUser = none := by
  decide

/-- C9: in every state reached from a freshly loaded page by any sequence of
`startSessionTimer`, `logout`, `login`, `checkAuthState`, `checkAdminAuth` and timer
firings, at most one session-expiry timer is pending and its handle is the one stored
in `sessionTimer`; calling `startSessionTimer` there leaves exactly the new timer
pending, stores its handle, and the previous expiry timer is gone. -/
theorem run_single_expiry_timer (doc : Document) (href : String)
    (authRedirect : Option String) (events : List AuthEvent) :
    (expiryTimers (run (pageLoad doc href authRedirect) events)).length ≤ 1 ∧
    (∀ t ∈ expiryTimers (run (pageLoad doc href authRedirect) events),
      (run (pageLoad doc href authRedirect) events).sessionTimer = some t.handle) ∧
    expiryTimers (startSessionTimer (run (pageLoad doc href authRedirect) events))
      = [⟨(run (pageLoad doc href authRedirect) events).nextHandle,
          TimerKind.sessionExpiry, SESSION_TIMEOUT⟩] ∧
    (startSessionTimer (run (pageLoad doc href authRedirect) events)).sessionTimer
      = some (run (pageLoad doc href authRedirect) events).nextHandle ∧
    (∀ t ∈ expiryTimers (run (pageLoad doc href authRedirect) events),
      t ∉ (startSessionTimer (run (pageLoad doc href authRedirect) events)).timers) := by
  have hinv := timerInv_run events _ (timerInv_pageLoad doc href authRedirect)
  obtain ⟨_, hexp, hst, hgone⟩ := timerInv_startSessionTimer _ hinv
  refine ⟨hinv.1, hinv.2.1, hexp, hst, ?_⟩
  intro t ht
  have hm := List.mem_filter.mp ht
  exact hgone t hm.1 (by simpa using hm.2)

/-- C10: from a page with at most one loading overlay, `showLoading(m1)` followed by
`showLoading(m2)` leaves exactly one overlay, the one built for `m2`, and every
sequence of `showLoading` and `hideLoading` calls leaves at most one overlay. -/
theorem showLoading_last_call_wins (b : Browser) (m1 m2 : String)
    (h : (overlays b).length ≤ 1) :
    overlays (showLoading (showLoading b m1) m2) = [overlayFor m2] ∧
    ∀ calls : List LoadingCall, (overlays (runLoading b calls)).length ≤ 1 := by
  constructor
  · rw [overlays_showLoading, overlays_showLoading]
    have htl : (overlays b).tail = [] := by
      apply List.eq_nil_of_length_eq_zero
      rw [List.length_tail]
      omega
    rw [htl]
    rfl
  · intro calls
    exact overlays_runLoading calls b h

/-- C10 on a page that already shows an overlay. -/
theorem showLoading_last_call_wins_witness :
    (overlays (showLoading freshAdminPage "Loading...")).length ≤ 1 ∧
    overlays (showLoading (showLoading (showLoading freshAdminPage "Loading...")
      "Signing you in...") "Logging out...") = [overlayFor "Logging out..."] ∧
    ∀ calls : List LoadingCall,
      (overlays (runLoading (showLoading freshAdminPage "Loading...") calls)).length ≤ 1 :=
  ⟨by decide,
    showLoading_last_call_wins (showLoading freshAdminPage "Loading...")
      "Signing you in..." "Logging out..." (by decide)⟩


theorem showNotification_authRedirect (b : Browser) (m t : String) (d : Int) :
    (showNotification b m t d).authRedirect = b.authRedirect := by
  unfold showNotification
  split <;> rfl

theorem logout_authRedirect (b : Browser) (signOut : Except String Unit) :
    (logout b signOut).authRedirect = b.authRedirect := by
  cases signOut <;> cases h : b.sessionTimer <;>
    simp [logout, h, showLoading, hideLoading, navigate, clearTimeout, setTimeout,
      showNotification_authRedirect]

theorem logout_href (b : Browser) (signOut : Except String Unit) :
    (logout b signOut).href = b.href := by
  have hn : ∀ (c : Browser) (m t : String) (d : Int),
      (showNotification c m t d).href = c.href := by
    intro c m t d
    unfold showNotification
    split <;> rfl
  cases signOut <;> cases h : b.sessionTimer <;>
    simp [logout, h, showLoading, hideLoading, navigate, clearTimeout, setTimeout, hn]

/-- What `login` does with a provider error: only the overlay and the trace change. -/
theorem login_provider_error_eq (b : Browser) (email password m : String)
    (signOut : Except String Unit) (hemail : email ≠ "") (hpw : password ≠ "") :
    login b email password (Except.error m) signOut =
      (hideLoading
          { showLoading b "Signing you in..." with
            trace := (showLoading b "Signing you in...").trace ++
              [Call.signInWithPassword (normalizeEmail email) password] },
        Except.error (loginErrorMessage m)) := by
  unfold login
  simp [hemail, hpw, loginCatch]

/-- What a successful sign-in of the privileged identity makes `login` do. -/
theorem login_admin (b : Browser) (email password : String) (data : SignInData)
    (signOut : Except String Unit) (hemail : email ≠ "") (hpw : password ≠ "")
    (hadmin : data.user.email = ADMIN_EMAIL) :
    (login b email password (Except.ok data) signOut).2 = Except.ok data ∧
    (login b email password (Except.ok data) signOut).1.authRedirect = none ∧
    (login b email password (Except.ok data) signOut).1.navigations =
      b.navigations ++ [match b.authRedirect with
        | some url => if url = "" then "admin-dashboard.html" else url
        | none => "admin-dashboard.html"] := by
  unfold login
  simp only [hemail, hpw, or_self, if_false, hadmin, ne_eq, not_true_eq_false]
  refine ⟨trivial, rfl, ?_⟩
  cases hs : b.sessionTimer <;>
    simp [navigate, showNotification_navigations, showNotification_authRedirect,
      hideLoading, showLoading, startSessionTimer, setTimeout, clearTimeout, hs]


/-! ### Sign-in failures and the redirect round trip -/

/-- C11: when the sign-in is made (email and password non-empty) and the provider
answers with an error, `login` arms no timer, leaves `sessionTimer` and the stored
redirect target alone and requests no navigation; it fails with the invalid-credentials
message when the provider's message reports invalid login credentials, with the
unverified-account message when it reports an unconfirmed email, and otherwise with
the provider's own message (or the generic one when that is empty). -/
theorem login_provider_error (b : Browser) (email password m : String)
    (signOut : Except String Unit) (hemail : email ≠ "") (hpw : password ≠ "") :
    (login b email password (Except.error m) signOut).1.timers = b.timers ∧
    (login b email password (Except.error m) signOut).1.sessionTimer = b.sessionTimer ∧
    (login b email password (Except.error m) signOut).1.navigations = b.navigations ∧
    (login b email password (Except.error m) signOut).1.authRedirect = b.authRedirect ∧
    (includes m "Invalid login credentials" = true →
      (login b email password (Except.error m) signOut).2
        = Except.error "Invalid email or password. Please try again.") ∧
    (includes m "Invalid login credentials" = false →
      includes m "Email not confirmed" = true →
      (login b email password (Except.error m) signOut).2
        = Except.error "Please verify your email address before logging in.") ∧
    (includes m "Invalid login credentials" = false →
      includes m "Email not confirmed" = false →
      (login b email password (Except.error m) signOut).2
        = Except.error (if m = "" then "Login failed. Please try again." else m)) := by
  rw [login_provider_error_eq b email password m signOut hemail hpw]
  refine ⟨rfl, rfl, rfl, rfl, ?_, ?_, ?_⟩
  · intro h1
    simp [loginErrorMessage, h1]
  · intro h1 h2
    simp [loginErrorMessage, h1, h2]
  · intro h1 h2
    by_cases hm : m = ""
    · subst hm
      simp [loginErrorMessage, h1, h2]
    · simp [loginErrorMessage, h1, h2, hm]

/-- C11 at the credentials `bad@x.com` / `wrong` and the provider's message
`Invalid login credentials`. -/
theorem login_provider_error_witness :
    (login freshAdminPage "bad@x.com" "wrong" (Except.error "Invalid login credentials")
      (Except.ok ())).1.timers = freshAdminPage.timers ∧
    (login freshAdminPage "bad@x.com" "wrong" (Except.error "Invalid login credentials")
      (Except.ok ())).1.navigations = freshAdminPage.navigations ∧
    (login freshAdminPage "bad@x.com" "wrong" (Except.error "Invalid login credentials")
      (Except.ok ())).2 = Except.error "Invalid email or password. Please try again." :=
  have h := login_provider_error freshAdminPage "bad@x.com" "wrong"
    "Invalid login credentials" (Except.ok ()) (by decide) (by decide)
  ⟨h.1, h.2.2.1, h.2.2.2.2.1 (by decide)⟩

/-- C12: when `checkAdminAuth` finds no session, or a session of another identity, on
a page at address `L`, it returns false, stores `L` as the redirect target and its last
navigation request goes to the login page; a later successful sign-in of the
privileged identity on a page that sees that stored target navigates to `L` and clears
the target, and one on a page with no stored target navigates to
`admin-dashboard.html`. -/
theorem checkAdminAuth_login_round_trip (b c : Browser)
    (getSession : Except String (Option Session)) (signOut signOut2 : Except String Unit)
    (email password : String) (data : SignInData)
    (hhref : b.href ≠ "")
    (hgs : getSession = Except.ok none ∨
      ∃ s u, getSession = Except.ok (some s) ∧ s.user = some u ∧ u.email ≠ ADMIN_EMAIL)
    (hemail : email ≠ "") (hpw : password ≠ "") (hadmin : data.user.email = ADMIN_EMAIL) :
    (checkAdminAuth b getSession signOut).2 = false ∧
    (checkAdminAuth b getSession signOut).1.authRedirect = some b.href ∧
    ((checkAdminAuth b getSession signOut).1.navigations.getLast?
        = some "login.html?message=Access denied. Admin login required." ∨
      (checkAdminAuth b getSession signOut).1.navigations.getLast?
        = some "login.html?message=Access denied. Admin privileges required.") ∧
    (c.authRedirect = (checkAdminAuth b getSession signOut).1.authRedirect →
      (login c email password (Except.ok data) signOut2).2 = Except.ok data ∧
      (login c email password (Except.ok data) signOut2).1.navigations
        = c.navigations ++ [b.href] ∧
      (login c email password (Except.ok data) signOut2).1.authRedirect = none) ∧
    (c.authRedirect = none →
      (login c email password (Except.ok data) signOut2).2 = Except.ok data ∧
      (login c email password (Except.ok data) signOut2).1.navigations
        = c.navigations ++ ["admin-dashboard.html"] ∧
      (login c email password (Except.ok data) signOut2).1.authRedirect = none) := by
  obtain ⟨hres, hclear, hnav⟩ := login_admin c email password data signOut2 hemail hpw hadmin
  have hstore : (checkAdminAuth b getSession signOut).2 = false ∧
      (checkAdminAuth b getSession signOut).1.authRedirect = some b.href ∧
      ((checkAdminAuth b getSession signOut).1.navigations.getLast?
          = some "login.html?message=Access denied. Admin login required." ∨
        (checkAdminAuth b getSession signOut).1.navigations.getLast?
          = some "login.html?message=Access denied. Admin privileges required.") := by
    rcases hgs with rfl | ⟨s, u, rfl, hu, hne⟩
    · simp [checkAdminAuth, navigate]
    · simp [checkAdminAuth, navigate, hu, hne, logout_href]
  refine ⟨hstore.1, hstore.2.1, hstore.2.2, ?_, ?_⟩
  · intro hc
    rw [hstore.2.1] at hc
    refine ⟨hres, ?_, hclear⟩
    rw [hnav, hc]
    simp [hhref]
  · intro hc
    refine ⟨hres, ?_, hclear⟩
    rw [hnav, hc]

/-- C12 on the example admin page with no session, followed by the sign-in of the
privileged identity on the login page. -/
theorem checkAdminAuth_login_round_trip_witness :
    (checkAdminAuth freshAdminPage (Except.ok none) (Except.ok ())).2 = false ∧
    (checkAdminAuth freshAdminPage (Except.ok none) (Except.ok ())).1.authRedirect
      = some "https://shop.example/admin-dashboard.html#products-view" ∧
    (login (pageLoad adminPage "https://shop.example/login.html"
        (checkAdminAuth freshAdminPage (Except.ok none) (Except.ok ())).1.authRedirect)
      "Admin@Example.com" "secret" (Except.ok ⟨adminUser, ⟨some adminUser, some 0⟩⟩)
      (Except.ok ())).1.navigations
      = ["https://shop.example/admin-dashboard.html#products-view"] :=
  have h := checkAdminAuth_login_round_trip freshAdminPage
    (pageLoad adminPage "https://shop.example/login.html"
      (checkAdminAuth freshAdminPage (Except.ok none) (Except.ok ())).1.authRedirect)
    (Except.ok none) (Except.ok ()) (Except.ok ()) "Admin@Example.com" "secret"
    ⟨adminUser, ⟨some adminUser, some 0⟩⟩ (by decide) (Or.inl rfl) (by decide) (by decide)
    rfl
  ⟨h.1, h.2.1, (h.2.2.2.1 rfl).2.1⟩


/-! ### Facts about the product form -/

theorem showNotification_notifications (b : Browser) (m t : String) (d : Int) :
    (showNotification b m t d).notifications = b.notifications ++ [⟨m, t⟩] := by
  unfold showNotification
  split <;> rfl

theorem notify_actions (a : AdminState) (m t : String) : (notify a m t).actions = a.actions :=
  rfl

theorem notify_submitDisabled (a : AdminState) (m t : String) :
    (notify a m t).submitDisabled = a.submitDisabled :=
  rfl

theorem notify_notifications (a : AdminState) (m t : String) :
    (notify a m t).browser.notifications = a.browser.notifications ++ [⟨m, t⟩] :=
  showNotification_notifications a.browser m t 5000

theorem loadProducts_actions (a : AdminState) (list : Outcome) :
    (loadProducts a list).actions = a.actions ++ [Action.loadProducts] := by
  cases list <;> rfl

theorem loadDashboardStats_actions (a : AdminState) (stats : Outcome) :
    (loadDashboardStats a stats).actions = a.actions ++ [Action.loadDashboardStats] := by
  cases stats <;> rfl

/-- The actions of the `try` block of the submit handler: one update (with an id) or
one insert (without), then, when the save succeeded, the hash change and the two
reloads. -/
theorem saveProduct_actions (a : AdminState) (env : Backend) (imageUrl : String) :
    (saveProduct a env imageUrl).actions =
      a.actions ++
        (if a.form.productId ≠ "" then
          Action.update a.form.productId (newProduct a.form imageUrl)
        else Action.insert (newProduct a.form imageUrl)) ::
        (if env.save = Outcome.ok then
          [Action.setHash "#products-view", Action.loadProducts, Action.loadDashboardStats]
        else []) := by
  unfold saveProduct
  cases hs : env.save <;>
    simp [hs, loadDashboardStats_actions, loadProducts_actions, notify_actions]

/-- The handler on a submission that passes validation and has no file chosen. -/
theorem submitProductForm_no_file (a : AdminState) (env : Backend)
    (ht : a.form.title ≠ "") (hp : a.form.price ≠ "") (hc : a.form.category ≠ "")
    (hid : a.form.productId ≠ "") (hfile : a.form.file = none) :
    submitProductForm a env =
      saveProduct
        { a with submitDisabled := true
                 browser := showLoading a.browser "Saving product..." }
        env a.form.imageUrl := by
  unfold submitProductForm
  simp [ht, hp, hc, hid, hfile]

/-- The handler on a submission that passes validation and has a file chosen. -/
theorem submitProductForm_file (a : AdminState) (env : Backend) (file : ImageFile)
    (ht : a.form.title ≠ "") (hp : a.form.price ≠ "") (hc : a.form.category ≠ "")
    (hfile : a.form.file = some file) :
    submitProductForm a env =
      (let fileName := toString env.now ++ "_" ++ file.name
       let c : AdminState :=
        { a with submitDisabled := true
                 browser := showLoading a.browser "Saving product..."
                 actions := a.actions ++ [Action.upload fileName] }
       match env.upload with
       | Outcome.error _ =>
         notify { c with browser := hideLoading c.browser } "Image upload failed." "error"
       | Outcome.thrown _ => c
       | Outcome.ok => saveProduct c env (env.publicUrl fileName)) := by
  unfold submitProductForm
  simp [ht, hp, hc, hfile]


/-! ### The product form and the product list -/

/-- C13: a submission that fails validation (title, price or category empty, or no
product id and no file chosen) adds no action at all, so no upload, insert or update is
issued; it shows one notification, which for a new product without image is
"Please select an image for the new product.". -/
theorem submitProductForm_invalid_no_call (a : AdminState) (env : Backend)
    (hinv : formValid a.form = false) :
    (submitProductForm a env).actions = a.actions ∧
    (submitProductForm a env).browser.notifications.length
      = a.browser.notifications.length + 1 ∧
    (a.form.title ≠ "" → a.form.price ≠ "" → a.form.category ≠ "" →
      (submitProductForm a env).browser.notifications = a.browser.notifications ++
        [⟨"Please select an image for the new product.", "error"⟩]) := by
  unfold formValid at hinv
  by_cases hreq : a.form.title = "" ∨ a.form.price = "" ∨ a.form.category = ""
  · have hrun : submitProductForm a env =
        { notify { a with
            submitDisabled := true
            browser := hideLoading (showLoading a.browser "Saving product...") }
            "Please fill in all required fields: Title, Price, and Category." "error"
          with submitDisabled := false } := by
      unfold submitProductForm
      simp [hreq]
    rw [hrun]
    refine ⟨rfl, ?_, ?_⟩
    · show (notify _ _ _).browser.notifications.length = _
      rw [notify_notifications]
      simp [hideLoading, showLoading]
    · intro ht hp hc
      rcases hreq with h | h | h
      · exact absurd h ht
      · exact absurd h hp
      · exact absurd h hc
  · have hreq2 : a.form.title ≠ "" ∧ a.form.price ≠ "" ∧ a.form.category ≠ "" := by
      refine ⟨fun h => hreq (Or.inl h), fun h => hreq (Or.inr (Or.inl h)),
        fun h => hreq (Or.inr (Or.inr h))⟩
    have hnew : a.form.productId = "" ∧ a.form.file = none := by
      simpa [hreq2] using hinv
    have hrun : submitProductForm a env =
        { notify { a with
            submitDisabled := true
            browser := hideLoading (showLoading a.browser "Saving product...") }
            "Please select an image for the new product." "error"
          with submitDisabled := false } := by
      unfold submitProductForm
      simp [hreq, hnew.1, hnew.2]
    rw [hrun]
    refine ⟨rfl, ?_, ?_⟩
    · show (notify _ _ _).browser.notifications.length = _
      rw [notify_notifications]
      simp [hideLoading, showLoading]
    · intro _ _ _
      show (notify _ _ _).browser.notifications = _
      rw [notify_notifications]
      rfl

/-- C13 at the new product "Shirt" with no image chosen. -/
theorem submitProductForm_invalid_no_call_witness :
    (submitProductForm { freshAdminState with form := shirtNoImage } okBackend).actions
      = [] ∧
    (submitProductForm { freshAdminState with form := shirtNoImage }
      okBackend).browser.notifications
      = [⟨"Please select an image for the new product.", "error"⟩] :=
  have h := submitProductForm_invalid_no_call
    { freshAdminState with form := shirtNoImage } okBackend (by decide)
  ⟨h.1, h.2.2 (by decide) (by decide) (by decide)⟩

/-- C14: an edit (non-empty product id) with title, price and category filled in and
no file chosen issues exactly one update, for that id, and no upload or insert; the
record sent carries the form's existing `imageUrl` as its image.  What follows the
update is the hash change and the two reloads when it succeeded, nothing otherwise. -/
theorem submitProductForm_edit_no_file (a : AdminState) (env : Backend)
    (hid : a.form.productId ≠ "") (ht : a.form.title ≠ "") (hp : a.form.price ≠ "")
    (hc : a.form.category ≠ "") (hfile : a.form.file = none) :
    ∃ record rest,
      (submitProductForm a env).actions
        = a.actions ++ Action.update a.form.productId record :: rest ∧
      record.image = a.form.imageUrl ∧
      record = newProduct a.form a.form.imageUrl ∧
      (∀ x ∈ rest, isFormCall x = false) := by
  refine ⟨newProduct a.form a.form.imageUrl,
    if env.save = Outcome.ok then
      [Action.setHash "#products-view", Action.loadProducts, Action.loadDashboardStats]
    else [], ?_, rfl, rfl, ?_⟩
  · rw [submitProductForm_no_file a env ht hp hc hid hfile, saveProduct_actions]
    simp [hid]
  · intro x hx
    split at hx
    · simp only [List.mem_cons, List.mem_singleton, List.not_mem_nil, or_false] at hx
      rcases hx with rfl | rfl | rfl <;> rfl
    · cases hx

/-- C14 at the edit of product `42` with the existing image `https://x/y.png`. -/
theorem submitProductForm_edit_no_file_witness :
    ∃ record rest,
      (submitProductForm { freshAdminState with form := editShirt } okBackend).actions
        = [] ++ Action.update "42" record :: rest ∧
      record.image = "https://x/y.png" ∧
      record = newProduct editShirt "https://x/y.png" ∧
      (∀ x ∈ rest, isFormCall x = false) :=
  submitProductForm_edit_no_file { freshAdminState with form := editShirt } okBackend
    (by decide) (by decide) (by decide) (by decide) rfl

/-- C15, evaluated where it fails: a valid new product with an image chosen whose
upload comes back with an error gets its one notification, "Image upload failed.", and
the handler returns with the submit button still disabled; the validation failure of
the same form without image re-enables it. -/
theorem submitProductForm_upload_error_leaves_disabled :
    formValid shirtWithImage = true ∧
    (submitProductForm { freshAdminState with form := shirtWithImage }
      { okBackend with upload := Outcome.error "storage unavailable" }).browser.notifications
      = [⟨"Image upload failed.", "error"⟩] ∧
    (submitProductForm { freshAdminState with form := shirtWithImage }
      { okBackend with upload := Outcome.error "storage unavailable" }).submitDisabled
      = true ∧
    (submitProductForm { freshAdminState with form := shirtNoImage }
      okBackend).submitDisabled = false := by
  decide

/-- C16: when a submission that passes validation has a file chosen and its upload
does not succeed, the upload is the only action of the handler: no insert, no update,
no hash change and no reload follows. -/
theorem submitProductForm_upload_failed_aborts (a : AdminState) (env : Backend)
    (file : ImageFile) (ht : a.form.title ≠ "") (hp : a.form.price ≠ "")
    (hc : a.form.category ≠ "") (hfile : a.form.file = some file)
    (hup : env.upload ≠ Outcome.ok) :
    (submitProductForm a env).actions
      = a.actions ++ [Action.upload (toString env.now ++ "_" ++ file.name)] := by
  rw [submitProductForm_file a env file ht hp hc hfile]
  cases hu : env.upload with
  | ok => exact absurd hu hup
  | error m => rfl
  | thrown m => rfl

/-- C16 at the new product "Shirt" with `shirt.png` chosen and a failing upload. -/
theorem submitProductForm_upload_failed_aborts_witness :
    (submitProductForm { freshAdminState with form := shirtWithImage }
      { okBackend with upload := Outcome.error "storage unavailable" }).actions
      = [] ++ [Action.upload (toString (1700000000000 : Int) ++ "_" ++ "shirt.png")] :=
  submitProductForm_upload_failed_aborts { freshAdminState with form := shirtWithImage }
    { okBackend with upload := Outcome.error "storage unavailable" } ⟨"shirt.png"⟩
    (by decide) (by decide) (by decide) rfl (by decide)

/-- C17: `deleteProduct`, when confirmed and the delete succeeds, adds exactly the
delete, then the list reload, then the stats reload; when the dialog is declined it
does nothing at all, and when the delete fails the delete is its only action. -/
theorem deleteProduct_reloads (a : AdminState) (env : Backend) (id : String)
    (confirmed : Bool) :
    (confirmed = true → env.delete = Outcome.ok →
      (deleteProduct a env id confirmed).actions
        = a.actions ++ [Action.delete id, Action.loadProducts, Action.loadDashboardStats]) ∧
    (confirmed = false → deleteProduct a env id confirmed = a) ∧
    (confirmed = true → env.delete ≠ Outcome.ok →
      (deleteProduct a env id confirmed).actions = a.actions ++ [Action.delete id]) := by
  refine ⟨?_, ?_, ?_⟩
  · intro hconf hdel
    subst hconf
    simp [deleteProduct, hdel, loadDashboardStats_actions, loadProducts_actions,
      notify_actions]
  · intro hconf
    subst hconf
    rfl
  · intro hconf hdel
    subst hconf
    cases hd : env.delete with
    | ok => exact absurd hd hdel
    | error m => simp [deleteProduct, hd, notify_actions]
    | thrown m => simp [deleteProduct, hd]

/-- C17 at the confirmed, successful delete of product `7`. -/
theorem deleteProduct_reloads_witness :
    (deleteProduct freshAdminState okBackend "7" true).actions
      = [] ++ [Action.delete "7", Action.loadProducts, Action.loadDashboardStats] :=
  (deleteProduct_reloads freshAdminState okBackend "7" true).1 rfl rfl


/-! ### Facts about the markup reader -/

theorem scan_append (s : Scan) (a b : List Char) : scan s (a ++ b) = scan (scan s a) b := by
  unfold scan
  rw [List.foldl_append]

/-- Text without `<` inside an element is added to the child being read. -/
theorem scan_text (cs : List String) (d : Nat) (hd : d ≠ 0) (v : List Char) :
    ∀ cur : List Char, '<' ∉ v →
      scan (inText cs cur d) v = inText cs (v.reverse ++ cur) d := by
  induction v with
  | nil => intro cur _; rfl
  | cons c v ih =>
    intro cur hv
    have hc : c ≠ '<' := fun h => hv (h ▸ List.mem_cons_self _ _)
    have hv2 : '<' ∉ v := fun h => hv (List.mem_cons_of_mem _ h)
    have hstep : scanStep (inText cs cur d) c = inText cs (c :: cur) d := by
      simp [scanStep, inText, hc, hd]
    show scan (scanStep (inText cs cur d) c) v = _
    rw [hstep, ih (c :: cur) hv2]
    simp

/-- Text without `<` outside every element is dropped. -/
theorem scan_text_outside (cs : List String) (cur : List Char) (v : List Char) :
    '<' ∉ v → scan (inText cs cur 0) v = inText cs cur 0 := by
  induction v with
  | nil => intro _; rfl
  | cons c v ih =>
    intro hv
    have hc : c ≠ '<' := fun h => hv (h ▸ List.mem_cons_self _ _)
    have hv2 : '<' ∉ v := fun h => hv (List.mem_cons_of_mem _ h)
    have hstep : scanStep (inText cs cur 0) c = inText cs cur 0 := by
      simp [scanStep, inText, hc]
    show scan (scanStep (inText cs cur 0) c) v = _
    rw [hstep, ih hv2]

/-- An attribute value without a double quote is added to the child being read and
the reader stays inside the value. -/
theorem scan_attr (cs : List String) (d : Nat) (name : List Char) (v : List Char) :
    ∀ cur : List Char, '"' ∉ v →
      scan (inAttr cs cur d name) v = inAttr cs (v.reverse ++ cur) d name := by
  induction v with
  | nil => intro cur _; rfl
  | cons c v ih =>
    intro cur hv
    have hc : c ≠ '"' := fun h => hv (h ▸ List.mem_cons_self _ _)
    have hv2 : '"' ∉ v := fun h => hv (List.mem_cons_of_mem _ h)
    have hstep : scanStep (inAttr cs cur d name) c = inAttr cs (c :: cur) d name := by
      simp [scanStep, inAttr, hc]
    show scan (scanStep (inAttr cs cur d name) c) v = _
    rw [hstep, ih (c :: cur) hv2]
    simp

theorem scan_cardSeg0 (cs : List String) (cur : List Char) :
    scan (inText cs cur 0) cardSeg0.data
      = inAttr cs (cardSeg0.data.reverse ++ cur) 0 ['v', 'i', 'd'] := by
  simp [scan, scanStep, endTag, inText, inAttr, cardSeg0, voidElements]

theorem scan_cardSeg1 (cs : List String) (cur : List Char) :
    scan (inAttr cs cur 0 ['v', 'i', 'd']) cardSeg1.data
      = inText cs (cardSeg1.data.reverse ++ cur) 1 := by
  simp [scan, scanStep, endTag, inText, inAttr, cardSeg1, voidElements]

theorem scan_badgeHTML (cs : List String) (cur : List Char) (p : Product) :
    scan (inText cs cur 1) (badgeHTML p).data
      = inText cs ((badgeHTML p).data.reverse ++ cur) 1 := by
  unfold badgeHTML
  cases p.featured <;> simp [scan, scanStep, endTag, inText, voidElements]

theorem scan_cardSeg2 (cs : List String) (cur : List Char) :
    scan (inText cs cur 1) cardSeg2.data
      = inAttr cs (cardSeg2.data.reverse ++ cur) 1 ['g', 'm', 'i'] := by
  simp [scan, scanStep, endTag, inText, inAttr, cardSeg2, voidElements]

theorem scan_cardSeg3 (cs : List String) (cur : List Char) :
    scan (inAttr cs cur 1 ['g', 'm', 'i']) cardSeg3.data
      = inAttr cs (cardSeg3.data.reverse ++ cur) 1 ['g', 'm', 'i'] := by
  simp [scan, scanStep, endTag, inText, inAttr, cardSeg3, voidElements]

theorem scan_cardSeg4a (cs : List String) (cur : List Char) :
    scan (inAttr cs cur 1 ['g', 'm', 'i']) cardSeg4a.data
      = inAttr cs (cardSeg4a.data.reverse ++ cur) 1 ['g', 'm', 'i'] := by
  simp [scan, scanStep, endTag, inText, inAttr, cardSeg4a, voidElements]

theorem scan_cardSeg4b (cs : List String) (cur : List Char) :
    scan (inAttr cs cur 1 ['g', 'm', 'i']) cardSeg4b.data
      = inAttr cs (cardSeg4b.data.reverse ++ cur) 1 ['g', 'm', 'i'] :=
  scan_attr cs 1 _ _ cur (by decide)

theorem scan_cardSeg4c (cs : List String) (cur : List Char) :
    scan (inAttr cs cur 1 ['g', 'm', 'i']) cardSeg4c.data
      = inText cs (cardSeg4c.data.reverse ++ cur) 3 := by
  simp [scan, scanStep, endTag, inText, inAttr, cardSeg4c, voidElements]

theorem scan_cardSeg5 (cs : List String) (cur : List Char) :
    scan (inText cs cur 3) cardSeg5.data = inText cs (cardSeg5.data.reverse ++ cur) 3 := by
  simp [scan, scanStep, endTag, inText, cardSeg5, voidElements]

theorem scan_cardSeg6 (cs : List String) (cur : List Char) :
    scan (inText cs cur 3) cardSeg6.data = inText cs (cardSeg6.data.reverse ++ cur) 3 := by
  simp [scan, scanStep, endTag, inText, cardSeg6, voidElements]

theorem scan_cardSeg7 (cs : List String) (cur : List Char) :
    scan (inText cs cur 3) cardSeg7.data = inText cs (cardSeg7.data.reverse ++ cur) 4 := by
  simp [scan, scanStep, endTag, inText, cardSeg7, voidElements]

theorem scan_cardSeg8a (cs : List String) (cur : List Char) :
    scan (inText cs cur 4) cardSeg8a.data = inText cs (cardSeg8a.data.reverse ++ cur) 4 := by
  simp [scan, scanStep, endTag, inText, cardSeg8a, voidElements]

theorem scan_cardSeg8b (cs : List String) (cur : List Char) :
    scan (inText cs cur 4) cardSeg8b.data = inText cs (cardSeg8b.data.reverse ++ cur) 4 := by
  simp [scan, scanStep, endTag, inText, cardSeg8b, voidElements]

theorem scan_cardSeg9a (cs : List String) (cur : List Char) :
    scan (inText cs cur 4) cardSeg9a.data = inText cs (cardSeg9a.data.reverse ++ cur) 3 := by
  simp [scan, scanStep, endTag, inText, cardSeg9a, voidElements]

theorem scan_cardSeg9b (cs : List String) (cur : List Char) :
    scan (inText cs cur 3) cardSeg9b.data = inText cs (cardSeg9b.data.reverse ++ cur) 2 := by
  simp [scan, scanStep, endTag, inText, cardSeg9b, voidElements]

theorem scan_cardSeg9c (cs : List String) (cur : List Char) :
    scan (inText cs cur 2) cardSeg9c.data
      = inText (cs ++ [String.mk (cardSeg9c.data.reverse ++ cur).reverse]) [] 0 := by
  simp [scan, scanStep, endTag, inText, cardSeg9c, voidElements]

theorem noQuote_iff (s : String) : noQuote s = true ↔ '"' ∉ s.data := by
  simp [noQuote]

theorem noTag_iff (s : String) : noTag s = true ↔ '<' ∉ s.data := by
  simp [noTag]

/-- The reader over the head of a card whose id, image address, title and price carry
no markup: it ends inside the description paragraph, three elements deep. -/
theorem scan_cardHead (fmt : String → String) (p : Product) (cs : List String)
    (hid : noQuote p.id = true) (himg : noQuote p.image = true)
    (htq : noQuote p.title = true) (hprice : noTag (fmt p.price) = true)
    (htt : noTag p.title = true) :
    scan (inText cs [] 0) (cardHead fmt p).data
      = inText cs (cardHead fmt p).data.reverse 3 := by
  rw [noQuote_iff] at hid himg htq
  rw [noTag_iff] at hprice htt
  simp only [cardHead, String.data_append, List.append_assoc, scan_append]
  rw [scan_cardSeg0, scan_attr _ _ _ _ _ hid, scan_cardSeg1, scan_badgeHTML, scan_cardSeg2,
    scan_attr _ _ _ _ _ himg, scan_cardSeg3, scan_attr _ _ _ _ _ htq, scan_cardSeg4a,
    scan_cardSeg4b, scan_cardSeg4c, scan_text _ _ (by decide) _ _ hprice, scan_cardSeg5,
    scan_text _ _ (by decide) _ _ htt, scan_cardSeg6]
  simp only [List.reverse_append, List.append_assoc, List.append_nil]

/-- The reader over the tail of a card whose category and stock carry no markup,
starting three elements deep: it finishes the child. -/
theorem scan_cardTail (p : Product) (cs : List String) (cur : List Char)
    (hcat : noTag (categoryText p) = true) (hstock : noTag (stockText p) = true) :
    scan (inText cs cur 3) (cardTail p).data
      = inText (cs ++ [String.mk (cur.reverse ++ (cardTail p).data)]) [] 0 := by
  rw [noTag_iff] at hcat hstock
  simp only [cardTail, String.data_append, List.append_assoc, scan_append]
  rw [scan_cardSeg7, scan_text _ _ (by decide) _ _ hcat, scan_cardSeg8a, scan_cardSeg8b,
    scan_text _ _ (by decide) _ _ hstock, scan_cardSeg9a, scan_cardSeg9b, scan_cardSeg9c]
  simp only [List.reverse_append, List.reverse_reverse, List.append_assoc]

/-- The reader over the template of one product without markup in its fields adds
exactly one child, the card of that product. -/
theorem scan_cardHTML (fmt : String → String) (p : Product) (cs : List String)
    (hp : plainProduct fmt p = true) :
    scan (inText cs [] 0) (cardHTML fmt p).data
      = inText (cs ++ [cardElement fmt p]) [] 0 := by
  simp only [plainProduct, Bool.and_eq_true] at hp
  obtain ⟨⟨⟨⟨⟨⟨⟨hid, himg⟩, htq⟩, hprice⟩, htt⟩, hdesc⟩, hcat⟩, hstock⟩ :=
    hp
  have hd : '<' ∉ (descriptionText p).data := (noTag_iff _).mp hdesc
  have hdata : (cardHTML fmt p).data = cardLead.data ++ ((cardHead fmt p).data ++
      ((descriptionText p).data ++ ((cardTail p).data ++ cardTrail.data))) := by
    simp only [cardHTML, cardElement, String.data_append, List.append_assoc]
  rw [hdata, scan_append, scan_append, scan_append, scan_append,
    scan_text_outside _ _ _ (by decide), scan_cardHead fmt p cs hid himg htq hprice htt,
    scan_text _ _ (by decide) _ _ hd, scan_cardTail p _ _ hcat hstock,
    scan_text_outside _ _ _ (by decide)]
  have hchild : String.mk (((descriptionText p).data.reverse ++
      (cardHead fmt p).data.reverse).reverse ++ (cardTail p).data) = cardElement fmt p := by
    apply String.ext
    simp only [cardElement, String.data_append, List.reverse_append, List.reverse_reverse,
      List.append_assoc]
  rw [hchild]

/-- The reader over the markup of a list of products without markup in their fields
adds one child per product, in order. -/
theorem scan_productsHTML (fmt : String → String) (ps : List Product) :
    ∀ cs : List String, (∀ p ∈ ps, plainProduct fmt p = true) →
      scan (inText cs [] 0) (productsHTML fmt ps).data
        = inText (cs ++ ps.map (cardElement fmt)) [] 0 := by
  induction ps with
  | nil =>
    intro cs _
    simp [productsHTML, scan]
  | cons p ps ih =>
    intro cs hps
    have hp : plainProduct fmt p = true := hps p (List.mem_cons_self _ _)
    have hrest : ∀ q ∈ ps, plainProduct fmt q = true :=
      fun q hq => hps q (List.mem_cons_of_mem _ hq)
    have hdata : (productsHTML fmt (p :: ps)).data
        = (cardHTML fmt p).data ++ (productsHTML fmt ps).data := by
      simp [productsHTML, String.data_join]
    rw [hdata, scan_append, scan_cardHTML fmt p cs hp, ih _ hrest]
    simp

theorem parseChildren_productsHTML (fmt : String → String) (ps : List Product)
    (hps : ∀ p ∈ ps, plainProduct fmt p = true) :
    parseChildren (productsHTML fmt ps) = ps.map (cardElement fmt) := by
  unfold parseChildren
  rw [scan_productsHTML fmt ps [] hps]
  simp [scanEnd, inText]

theorem parseChildren_empty : parseChildren "" = [] := by
  decide

theorem take_min_length (l : List Product) (m : Nat) :
    l.take (min l.length m) = l.take m := by
  rcases Nat.le_total l.length m with h | h
  · rw [Nat.min_eq_left h, List.take_of_length_le h, List.take_of_length_le (le_refl _)]
  · rw [Nat.min_eq_right h]

/-- Appending a page of products without markup adds their cards, also when the page
is empty. -/
theorem displayProductsPage_append (fmt : String → String) (grid : List String)
    (products : List Product) (hps : ∀ p ∈ products, plainProduct fmt p = true) :
    displayProductsPage fmt grid products true = grid ++ products.map (cardElement fmt) := by
  unfold displayProductsPage
  cases products with
  | nil => simp
  | cons x xs =>
    simp only [List.length_cons, Nat.succ_ne_zero, if_false, if_true]
    rw [parseChildren_productsHTML fmt _ hps]

theorem displayProductsPage_replace (fmt : String → String) (grid : List String)
    (products : List Product) (h : products ≠ [])
    (hps : ∀ p ∈ products, plainProduct fmt p = true) :
    displayProductsPage fmt grid products false = products.map (cardElement fmt) := by
  unfold displayProductsPage
  cases products with
  | nil => exact absurd rfl h
  | cons x xs =>
    simp only [List.length_cons, Nat.succ_ne_zero, if_false, Bool.false_eq_true]
    rw [parseChildren_productsHTML fmt _ hps]

theorem plain_slice (fmt : String → String) (l : List Product) (a b : Nat)
    (hl : ∀ p ∈ l, plainProduct fmt p = true) :
    ∀ p ∈ slice l a b, plainProduct fmt p = true := by
  intro p hp
  unfold slice at hp
  exact hl p (List.mem_of_mem_drop (List.mem_of_mem_take hp))

theorem loadMoreProducts_fields (fmt : String → String) (p : ProductsPage)
    (hl : ∀ x ∈ p.allProducts, plainProduct fmt x = true) :
    (loadMoreProducts fmt p).currentPage = p.currentPage + 1 ∧
    (loadMoreProducts fmt p).allProducts = p.allProducts ∧
    (loadMoreProducts fmt p).grid =
      p.grid ++ (slice p.allProducts (p.currentPage * productsPerPage)
        (p.currentPage * productsPerPage + productsPerPage)).map (cardElement fmt) := by
  have hdisp := displayProductsPage_append fmt p.grid
    (slice p.allProducts (p.currentPage * productsPerPage)
      (p.currentPage * productsPerPage + productsPerPage)) (plain_slice fmt _ _ _ hl)
  unfold loadMoreProducts
  simp only [Nat.add_sub_cancel]
  split
  · split <;> exact ⟨rfl, rfl, hdisp⟩
  · exact ⟨rfl, rfl, hdisp⟩

/-- The state after `loadAllProducts` and `k` calls of `loadMoreProducts`, for fetched
products without markup in their fields. -/
theorem loadMore_iterate (fmt : String → String) (p : ProductsPage)
    (fetched : List Product) (h : fetched ≠ [])
    (hl : ∀ x ∈ fetched, plainProduct fmt x = true) (k : Nat) :
    (Nat.iterate (loadMoreProducts fmt) k (loadAllProducts fmt p fetched)).currentPage
      = k + 1 ∧
    (Nat.iterate (loadMoreProducts fmt) k (loadAllProducts fmt p fetched)).allProducts
      = fetched ∧
    (Nat.iterate (loadMoreProducts fmt) k (loadAllProducts fmt p fetched)).grid
      = (fetched.take (productsPerPage * (k + 1))).map (cardElement fmt) := by
  induction k with
  | zero =>
    refine ⟨rfl, rfl, ?_⟩
    show displayProductsPage fmt p.grid (slice fetched 0 productsPerPage) false = _
    have hs : slice fetched 0 productsPerPage = fetched.take productsPerPage := by
      simp [slice]
    have hne : fetched.take productsPerPage ≠ [] := by
      cases fetched with
      | nil => exact absurd rfl h
      | cons x xs => simp [productsPerPage]
    have hplain : ∀ x ∈ fetched.take productsPerPage, plainProduct fmt x = true :=
      fun x hx => hl x (List.mem_of_mem_take hx)
    rw [hs, displayProductsPage_replace fmt _ _ hne hplain]
    simp
  | succ k ih =>
    obtain ⟨hpage, hall, hgrid⟩ := ih
    rw [Function.iterate_succ_apply']
    obtain ⟨h1, h2, h3⟩ := loadMoreProducts_fields fmt
      (Nat.iterate (loadMoreProducts fmt) k (loadAllProducts fmt p fetched))
      (by rw [hall]; exact hl)
    refine ⟨by rw [h1, hpage], by rw [h2, hall], ?_⟩
    rw [h3, hgrid, hall, hpage]
    unfold slice
    rw [← List.map_append]
    congr 1
    have hmul : productsPerPage * (k + 1 + 1)
        = productsPerPage * (k + 1) + productsPerPage := by ring
    rw [hmul, List.take_add, Nat.mul_comm (k + 1) productsPerPage, Nat.add_sub_cancel_left]

theorem loadAllProducts_grid (fmt : String → String) (p : ProductsPage)
    (fetched : List Product) :
    (loadAllProducts fmt p fetched).grid
      = displayProductsPage fmt p.grid (slice fetched 0 productsPerPage) false :=
  rfl

/-- The reader over the description of `markupProduct`, three elements deep: the end
tags in it finish the child being read and its start tags leave the reader three
elements deep in a second child. -/
theorem scan_markupDescription (cs : List String) (cur : List Char) :
    scan (inText cs cur 3) markupDescription.data
      = inText (cs ++ [String.mk (cur.reverse ++ markupCardEnd.data)])
          markupGhostStart.data.reverse 3 := by
  simp [scan, scanStep, endTag, inText, markupDescription, markupCardEnd, markupGhostStart,
    voidElements]

/-- The children of the grid after `loadAllProducts` has fetched `markupProduct` and
one more product: the card of the first product is cut short, a second card follows
from the markup in its description, and the card of the second product is the
third. -/
theorem loadAllProducts_markup_grid :
    (loadAllProducts priceTag emptyProductsPage [markupProduct, sampleProduct 2]).grid
      = [String.mk ((cardHead priceTag markupProduct).data ++ markupCardEnd.data),
         String.mk (markupGhostStart.data ++ (cardTail markupProduct).data),
         cardElement priceTag (sampleProduct 2)] := by
  have hdata : (productsHTML priceTag [markupProduct, sampleProduct 2]).data
      = cardLead.data ++ ((cardHead priceTag markupProduct).data ++
          (markupDescription.data ++ ((cardTail markupProduct).data ++
            (cardTrail.data ++ (cardHTML priceTag (sampleProduct 2)).data)))) := by
    simp only [productsHTML, String.data_join, List.map_cons, List.map_nil,
      List.flatten_cons, List.flatten_nil, List.append_nil]
    have hd : descriptionText markupProduct = markupDescription := by decide
    simp only [cardHTML, cardElement, String.data_append, List.append_assoc, hd]
  have hs : slice [markupProduct, sampleProduct 2] 0 productsPerPage
      = [markupProduct, sampleProduct 2] := by
    decide
  rw [loadAllProducts_grid, hs]
  unfold displayProductsPage parseChildren
  simp only [List.length_cons, List.length_nil, Nat.succ_ne_zero, if_false,
    Bool.false_eq_true]
  rw [hdata, scan_append, scan_append, scan_append, scan_append, scan_append,
    scan_text_outside _ _ _ (by decide),
    scan_cardHead priceTag markupProduct [] (by decide) (by decide) (by decide) (by decide)
      (by decide),
    scan_markupDescription, scan_cardTail markupProduct _ _ (by decide) (by decide),
    scan_text_outside _ _ _ (by decide),
    scan_cardHTML priceTag (sampleProduct 2) _ (by decide)]
  simp [scanEnd, inText]

/-! ### The storefront product list -/

/-- C18 as stated fails: `loadAllProducts` on a fetched list of two products, the
first of which has markup in its description, leaves three product cards in the grid,
where the claim has the cards of the first `min 2 12 = 2` products, one each. -/
theorem loadAllProducts_markup_three_cards :
    [markupProduct, sampleProduct 2] ≠ [] ∧
    min [markupProduct, sampleProduct 2].length (12 * (0 + 1)) = 2 ∧
    (loadAllProducts priceTag emptyProductsPage
      [markupProduct, sampleProduct 2]).grid.length = 3 ∧
    ((loadAllProducts priceTag emptyProductsPage
      [markupProduct, sampleProduct 2]).grid.filter isProductCard).length = 3 := by
  rw [loadAllProducts_markup_grid]
  refine ⟨by decide, by decide, rfl, ?_⟩
  decide

/-- C18, amended: when no field the card template writes out carries markup of its own
(no double quote in id, image address and title; no `<` in formatted price, title,
description, category and stock), then after `loadAllProducts` has fetched a
non-empty list and `loadMoreProducts` has been called `k` times the children of the
grid are the cards of the first `min n (12 * (k + 1))` fetched products, in the
fetched order, one card each. -/
theorem loadMoreProducts_grid (fmt : String → String) (p : ProductsPage)
    (fetched : List Product) (k : Nat) (h : fetched ≠ [])
    (hplain : ∀ x ∈ fetched, plainProduct fmt x = true) :
    (Nat.iterate (loadMoreProducts fmt) k (loadAllProducts fmt p fetched)).grid
      = (fetched.take (min fetched.length (12 * (k + 1)))).map (cardElement fmt) ∧
    (Nat.iterate (loadMoreProducts fmt) k (loadAllProducts fmt p fetched)).grid.length
      = min fetched.length (12 * (k + 1)) := by
  have hgrid := (loadMore_iterate fmt p fetched h hplain k).2.2
  have h12 : productsPerPage = 12 := rfl
  rw [h12] at hgrid
  constructor
  · rw [hgrid, take_min_length]
  · rw [hgrid]
    simp [Nat.min_comm]

/-- C18, amended, on a catalogue of thirty products after one call of
`loadMoreProducts`. -/
theorem loadMoreProducts_grid_witness :
    (Nat.iterate (loadMoreProducts priceTag) 1
      (loadAllProducts priceTag emptyProductsPage sampleCatalogue)).grid
      = (sampleCatalogue.take (min sampleCatalogue.length (12 * (1 + 1)))).map
          (cardElement priceTag) ∧
    (Nat.iterate (loadMoreProducts priceTag) 1
      (loadAllProducts priceTag emptyProductsPage sampleCatalogue)).grid.length
      = min sampleCatalogue.length (12 * (1 + 1)) :=
  loadMoreProducts_grid priceTag emptyProductsPage sampleCatalogue 1 (by decide) (by decide)

end Store
